import Mathlib

/-!
Shallow embedding of the murmur8tion CHIP-8 interpreter core
(src/hardware.rs, src/model.rs, src/instruction.rs, src/screen/*.rs),
together with theorems settling the frozen claims about it.

Machine integers are modelled as `Nat` with explicit `% 2^w` where the Rust
code can wrap; fallible Rust code (functions returning `Result`, and
reachable panics such as an integer division by zero) is modelled in an
error monad.  `EStateM` is used for `Chip8::tick` because the Rust method
takes `&mut self`: on an `Err` return the mutations already performed
remain visible to the caller, which `EStateM.Result.error` captures by
carrying the state.
-/

namespace Murmur8

/-- Embeds `hardware::KeyEvent`. -/
inductive KeyEvent
  | press
  | release
deriving DecidableEq

/-- Embeds `model::DrawWaitSetting`. -/
inductive DrawWaitSetting
  | always
  | loresOnly
  | never
deriving DecidableEq

/-- Embeds `model::DrawWaitSetting::wait`. -/
def DrawWaitSetting.wait : DrawWaitSetting → Bool → Bool
  | .always, _ => true
  | .loresOnly, hires => !hires
  | .never, _ => false

/-- Embeds `model::Quirks`. -/
structure Quirks where
  gracefulExitOn0000 : Bool
  bitshiftUseY : Bool
  keyWaitTrigger : KeyEvent
  incIOnSlice : Bool
  bitwiseResetFlag : Bool
  drawWaitForVblank : DrawWaitSetting
  clearScreenOnModeSwitch : Bool
  jumpV0UseVx : Bool
  loresDrawLargeAsSmall : Bool
deriving DecidableEq

/-- Embeds `instruction::InstructionSet`. -/
inductive InstructionSet
  | cosmacVip
  | superChip
  | xoChip
deriving DecidableEq

/-- Rank of an instruction-set tier in declaration order; the Rust enum
derives `PartialOrd`, which orders by declaration. -/
def InstructionSet.rank : InstructionSet → Nat
  | .cosmacVip => 0
  | .superChip => 1
  | .xoChip => 2

/-- Embeds the Rust `>=` comparison on `InstructionSet`. -/
def InstructionSet.atLeast (a b : InstructionSet) : Bool :=
  b.rank ≤ a.rank

/-- Embeds `screen::UnsupportedScreenOperation`. -/
inductive ScreenOp
  | hiresMode
  | setPlanes
  | largeSprite
  | largeSpriteInLores
  | scrollDown
  | scrollUp
  | scrollRight
  | scrollLeft
deriving DecidableEq

/-- Embeds `hardware::Error` (the variants reachable from the embedded
code; `UnsupportedInstruction` and `InvalidExactMemoryRange` are never
constructed in `src/hardware.rs`). -/
inductive Err
  | invalidInstruction (word : Nat)
  | pcOverflow (addr : Nat)
  | stackEmpty
  | stackFull
  | invalidMemoryRange (start stop memorySize : Nat)
  | unsupportedScreenOperation (op : ScreenOp)
deriving DecidableEq

/-- A failure of one interpreter step: either a returned `hardware::Error`,
or a Rust panic (the only reachable one in the embedded code is the
division by zero in `XoChipScreen::draw_sprite`). -/
inductive Fail
  | err (e : Err)
  | panicked
deriving DecidableEq

/-- Rotate a 128-bit value left, as `u128::rotate_left`. -/
def rotl128 (v n : Nat) : Nat :=
  ((v <<< (n % 128)) % 2 ^ 128) ||| (v >>> (128 - n % 128))

/-- Rotate a 128-bit value right, as `u128::rotate_right`. -/
def rotr128 (v n : Nat) : Nat :=
  (v >>> (n % 128)) ||| ((v <<< (128 - n % 128)) % 2 ^ 128)

/-- Embeds `screen::double_bits_holger` (byte to 16-bit pixel doubling via
the wrapping-multiply bithack). -/
def doubleBitsHolger (x : Nat) : Nat :=
  let m := (x * 0x0101010101010101 % 2 ^ 64 &&& 0x8040201008040201)
      * 0x0102040810204081 % 2 ^ 64
  ((m >>> 49) &&& 0x5555) * 3 % 2 ^ 16

/-- Embeds `screen::double_bits_magic` (16-bit to 32-bit pixel doubling). -/
def doubleBitsMagic (x : Nat) : Nat :=
  let x := (x ||| x <<< 8) &&& 0x00FF00FF
  let x := (x ||| x <<< 4) &&& 0x0F0F0F0F
  let x := (x ||| x <<< 2) &&& 0x33333333
  let x := (x ||| x <<< 1) &&& 0x55555555
  (x ||| x <<< 1) % 2 ^ 32

/-- Embeds `screen::draw_line` instantiated with plain shifts
(`screen::draw_line_clipping`).  `wd` is `width_difference`, the bit width
of the row type minus the bit width of the sprite-line type.  Returns the
updated row and the collision flag. -/
def drawLineC (wd x dest line : Nat) : Nat × Bool :=
  let mask := if x < wd then line <<< (wd - x)
    else if x = wd then line
    else line >>> (x - wd)
  (dest ^^^ mask, decide (dest &&& mask ≠ 0))

/-- Embeds `screen::draw_line` instantiated with 128-bit rotations
(`xochip::draw_line_wrapping`). -/
def drawLineW (wd x dest line : Nat) : Nat × Bool :=
  let mask := if x < wd then rotl128 line (wd - x)
    else if x = wd then line
    else rotr128 line (x - wd)
  (dest ^^^ mask, decide (dest &&& mask ≠ 0))

/-- Embeds the row loop of the clipping `draw_sprite` implementations:
`sprite.iter().zip(rows[pos..].iter_mut()).map(draw_line).fold(false, or)`.
Rows past the bottom edge are skipped because `zip` stops at the shorter
iterator. -/
def drawClipGo (wd x : Nat) (rows : List Nat) (pos : Nat) (lines : List Nat)
    (acc : Bool) : List Nat × Bool :=
  match lines with
  | [] => (rows, acc)
  | line :: rest =>
    if pos < rows.length then
      let p := drawLineC wd x (rows.getD pos 0) line
      drawClipGo wd x (rows.set pos p.1) (pos + 1) rest (acc || p.2)
    else (rows, acc)

/-- Row loop of `LegacySuperChipScreen::draw_large_sprite`: as
`drawClipGo` but summing the per-row collision flags
(`.map(|..| .. as u8).sum()`). -/
def drawClipCountGo (wd x : Nat) (rows : List Nat) (pos : Nat)
    (lines : List Nat) (acc : Nat) : List Nat × Nat :=
  match lines with
  | [] => (rows, acc)
  | line :: rest =>
    if pos < rows.length then
      let p := drawLineC wd x (rows.getD pos 0) line
      drawClipCountGo wd x (rows.set pos p.1) (pos + 1) rest
        (acc + if p.2 then 1 else 0)
    else (rows, acc)

/-- Row-pair loop of the clipping lores draws (modern SUPER-CHIP):
`chunks_exact_mut(2)` of the rows from `pos`, drawing the doubled line
into both rows of each pair. -/
def drawPairsGo (wd x : Nat) (rows : List Nat) (pos : Nat)
    (lines : List Nat) (acc : Bool) : List Nat × Bool :=
  match lines with
  | [] => (rows, acc)
  | line :: rest =>
    if pos + 1 < rows.length then
      let p0 := drawLineC wd x (rows.getD pos 0) line
      let p1 := drawLineC wd x (rows.getD (pos + 1) 0) line
      drawPairsGo wd x ((rows.set pos p0.1).set (pos + 1) p1.1) (pos + 2)
        rest (acc || (p0.2 || p1.2))
    else (rows, acc)

/-- Row-pair loop of `LegacySuperChipScreen::draw_sprite` in lores: the
doubled line is drawn into the first row of the pair, and the second row
receives `(dest1 & !zmask) | (dest0 & zmask)` (the faithfully reproduced
zone-mask bug of the original). -/
def legacyLoresGo (x zmask : Nat) (rows : List Nat) (pos : Nat)
    (lines : List Nat) (acc : Bool) : List Nat × Bool :=
  match lines with
  | [] => (rows, acc)
  | line :: rest =>
    if pos + 1 < rows.length then
      let p0 := drawLineC 112 x (rows.getD pos 0) line
      let d1 := (rows.getD (pos + 1) 0 &&& ((2 ^ 128 - 1) ^^^ zmask))
          ||| (p0.1 &&& zmask)
      legacyLoresGo x zmask ((rows.set pos p0.1).set (pos + 1) d1) (pos + 2)
        rest (acc || p0.2)
    else (rows, acc)

/-- Row loop of the wrapping hires draws (`iter_plane_wrapping`): row
`(y + j) % 64` receives line `j`; the iterator yields each of the 64 rows
once, so `zip` truncates the sprite after a full cycle. -/
def drawWrapGo (wd x : Nat) (rows : List Nat) (y j : Nat) (lines : List Nat)
    (acc : Bool) : List Nat × Bool :=
  match lines with
  | [] => (rows, acc)
  | line :: rest =>
    if j < rows.length then
      let pos := (y + j) % rows.length
      let p := drawLineW wd x (rows.getD pos 0) line
      drawWrapGo wd x (rows.set pos p.1) y (j + 1) rest (acc || p.2)
    else (rows, acc)

/-- Row-pair loop of the wrapping lores draws
(`iter_plane_wrapping_pairs`): pair `j` is rows `(y + 2j) % 64` and its
successor (`y` is always even here), both receiving the doubled line. -/
def drawWrapPairsGo (wd x : Nat) (rows : List Nat) (y j : Nat)
    (lines : List Nat) (acc : Bool) : List Nat × Bool :=
  match lines with
  | [] => (rows, acc)
  | line :: rest =>
    if 2 * j + 1 < rows.length then
      let pos := (y + 2 * j) % rows.length
      let p0 := drawLineW wd x (rows.getD pos 0) line
      let p1 := drawLineW wd x (rows.getD (pos + 1) 0) line
      drawWrapPairsGo wd x ((rows.set pos p0.1).set (pos + 1) p1.1) y (j + 1)
        rest (acc || (p0.2 || p1.2))
    else (rows, acc)

/-- Structural worker for `listChunks`: the fuel starts at the list
length and strictly bounds the number of chunks, keeping the recursion
structural (hence reducible). -/
def listChunksAux : Nat → Nat → List Nat → List (List Nat)
  | 0, _, _ => []
  | _ + 1, _, [] => []
  | _ + 1, 0, _ :: _ => []
  | fuel + 1, k + 1, x :: xs =>
    (x :: xs.take k) :: listChunksAux fuel (k + 1) (xs.drop k)

/-- Embeds `slice::chunks(k)` on byte lists (only called with `k > 0`;
`chunks(0)` panics in Rust and is modelled at the call sites). -/
def listChunks (k : Nat) (l : List Nat) : List (List Nat) :=
  listChunksAux l.length k l

/-- Embeds `chunks_exact(2)` plus `u16::from_be_bytes` on byte lists. -/
def bytesToWords : List Nat → List Nat
  | a :: b :: rest => (a * 256 + b) :: bytesToWords rest
  | _ => []

/-- Embeds `cosmac_vip::CosmacVipScreen`: 32 rows of 64 pixels, one `u64`
per row (bit `63 - c` is column `c`). -/
structure CosmacVipScreen where
  rows : List Nat
deriving DecidableEq

/-- Embeds `CosmacVipScreen::draw_sprite`: clip at the right/bottom edge,
start coordinates reduced modulo 64/32. -/
def CosmacVipScreen.drawSprite (s : CosmacVipScreen) (x y : Nat)
    (sprite : List Nat) : CosmacVipScreen × Bool :=
  let r := drawClipGo 56 (x % 64) s.rows (y % 32) sprite false
  (⟨r.1⟩, r.2)

/-- Embeds `schip::LegacySuperChipScreen`: 64 rows of 128 pixels plus a
hires flag. -/
structure LegacySuperChipScreen where
  data : List Nat
  hires : Bool
deriving DecidableEq

/-- Embeds `LegacySuperChipScreen::draw_sprite`. -/
def LegacySuperChipScreen.drawSprite (s : LegacySuperChipScreen) (x y : Nat)
    (sprite : List Nat) : LegacySuperChipScreen × Bool :=
  if s.hires then
    let r := drawClipGo 120 (x % 128) s.data (y % 64) sprite false
    ({ s with data := r.1 }, r.2)
  else
    let x2 := (x <<< 1) % 256 % 128
    let zoneOffset := x2 &&& 0xF0
    let zmask := (0xFFFFFFFF <<< 96) >>> zoneOffset
    let r := legacyLoresGo x2 zmask s.data ((y <<< 1) % 256 % 64)
        (sprite.map doubleBitsHolger) false
    ({ s with data := r.1 }, r.2)

/-- Embeds `LegacySuperChipScreen::draw_large_sprite`: in hires the
collision result is the number of rows containing a collision; in lores
the operation is unsupported.  `sprite[0]` on an empty slice panics. -/
def LegacySuperChipScreen.drawLargeSprite (s : LegacySuperChipScreen)
    (x y : Nat) (sprite : List (List Nat)) :
    Except Fail (LegacySuperChipScreen × Nat) :=
  if s.hires then
    match sprite with
    | [] => .error .panicked
    | s0 :: _ =>
      let r := drawClipCountGo 112 (x % 128) s.data (y % 64)
          (bytesToWords s0) 0
      .ok ({ s with data := r.1 }, r.2)
  else .error (.err (.unsupportedScreenOperation .largeSpriteInLores))

/-- Embeds `LegacySuperChipScreen::scroll_down` (no lores doubling). -/
def LegacySuperChipScreen.scrollDown (s : LegacySuperChipScreen)
    (amount : Nat) : LegacySuperChipScreen :=
  if amount > 0 then
    { s with data := List.replicate amount 0 ++ s.data.take (64 - amount) }
  else s

/-- Embeds `LegacySuperChipScreen::scroll_right` (always 4 columns). -/
def LegacySuperChipScreen.scrollRight (s : LegacySuperChipScreen) :
    LegacySuperChipScreen :=
  { s with data := s.data.map (fun line => line >>> 4) }

/-- Embeds `LegacySuperChipScreen::scroll_left` (always 4 columns). -/
def LegacySuperChipScreen.scrollLeft (s : LegacySuperChipScreen) :
    LegacySuperChipScreen :=
  { s with data := s.data.map (fun line => line <<< 4 % 2 ^ 128) }

/-- Embeds `schip::ModernSuperChipScreen`. -/
structure ModernSuperChipScreen where
  data : List Nat
  hires : Bool
deriving DecidableEq

/-- Embeds `ModernSuperChipScreen::draw_sprite`. -/
def ModernSuperChipScreen.drawSprite (s : ModernSuperChipScreen) (x y : Nat)
    (sprite : List Nat) : ModernSuperChipScreen × Bool :=
  if s.hires then
    let r := drawClipGo 120 (x % 128) s.data (y % 64) sprite false
    ({ s with data := r.1 }, r.2)
  else
    let x2 := (x <<< 1) % 256 % 128
    let r := drawPairsGo 112 x2 s.data ((y <<< 1) % 256 % 64)
        (sprite.map doubleBitsHolger) false
    ({ s with data := r.1 }, r.2)

/-- Embeds `ModernSuperChipScreen::draw_large_sprite`: the collision
result is the boolean aggregate, returned as `0` or `1`. -/
def ModernSuperChipScreen.drawLargeSprite (s : ModernSuperChipScreen)
    (x y : Nat) (sprite : List (List Nat)) :
    Except Fail (ModernSuperChipScreen × Nat) :=
  match sprite with
  | [] => .error .panicked
  | s0 :: _ =>
    if s.hires then
      let r := drawClipGo 112 (x % 128) s.data (y % 64) (bytesToWords s0)
          false
      .ok ({ s with data := r.1 }, if r.2 then 1 else 0)
    else
      let x2 := (x <<< 1) % 256 % 128
      let r := drawPairsGo 96 x2 s.data ((y <<< 1) % 256 % 64)
          ((bytesToWords s0).map doubleBitsMagic) false
      .ok ({ s with data := r.1 }, if r.2 then 1 else 0)

/-- Embeds `ModernSuperChipScreen::scroll_down` (doubled in lores). -/
def ModernSuperChipScreen.scrollDown (s : ModernSuperChipScreen)
    (amount : Nat) : ModernSuperChipScreen :=
  let amount := if s.hires then amount else amount * 2
  if amount > 0 then
    { s with data := List.replicate amount 0 ++ s.data.take (64 - amount) }
  else s

/-- Embeds `ModernSuperChipScreen::scroll_right` (4 hires / 8 lores). -/
def ModernSuperChipScreen.scrollRight (s : ModernSuperChipScreen) :
    ModernSuperChipScreen :=
  let amount := if s.hires then 4 else 8
  { s with data := s.data.map (fun line => line >>> amount) }

/-- Embeds `ModernSuperChipScreen::scroll_left` (4 hires / 8 lores). -/
def ModernSuperChipScreen.scrollLeft (s : ModernSuperChipScreen) :
    ModernSuperChipScreen :=
  let amount := if s.hires then 4 else 8
  { s with data := s.data.map (fun line => line <<< amount % 2 ^ 128) }

/-- Embeds `xochip::XoChipScreen`: four 64x128 planes (`data[0]` is the
plane of mask bit 3, `data[3]` the plane of mask bit 0), the
enabled-plane flags in the same order, and the hires flag. -/
structure XoChipScreen where
  data : List (List Nat)
  enabledPlanes : List Bool
  hires : Bool
deriving DecidableEq

/-- Embeds `XoChipScreen::num_active_planes`. -/
def XoChipScreen.numActivePlanes (s : XoChipScreen) : Nat :=
  (s.enabledPlanes.filter id).length

/-- Indices of the enabled planes in the order `iter_enabled_planes`
yields them (`data` order reversed, then filtered). -/
def XoChipScreen.selPlanes (s : XoChipScreen) : List Nat :=
  [3, 2, 1, 0].filter (fun p => s.enabledPlanes.getD p false)

/-- Embeds `XoChipScreen::set_planes`. -/
def XoChipScreen.setPlanes (s : XoChipScreen) (planes : Nat) : XoChipScreen :=
  { s with enabledPlanes := [
      decide (planes &&& 0b1000 ≠ 0),
      decide (planes &&& 0b0100 ≠ 0),
      decide (planes &&& 0b0010 ≠ 0),
      decide (planes &&& 0b0001 ≠ 0)] }

/-- Embeds `XoChipScreen::draw_sprite`: wrap rows and columns torus-style.
The sprite length is divided by the number of active planes, which in Rust
panics when all planes are disabled; `chunks(0)` likewise panics when the
quotient is zero. -/
def XoChipScreen.drawSprite (s : XoChipScreen) (x y : Nat)
    (sprite : List Nat) : Except Fail (XoChipScreen × Bool) :=
  if s.numActivePlanes = 0 then .error .panicked
  else
    let spriteSize := sprite.length / s.numActivePlanes
    if spriteSize = 0 then .error .panicked
    else
      let pairs := s.selPlanes.zip (listChunks spriteSize sprite)
      if s.hires then
        let r := pairs.foldl (fun (acc : List (List Nat) × Bool) pc =>
            let dr := drawWrapGo 120 (x % 128) (acc.1.getD pc.1 []) (y % 64)
                0 pc.2 false
            (acc.1.set pc.1 dr.1, acc.2 || dr.2)) (s.data, false)
        .ok ({ s with data := r.1 }, r.2)
      else
        let x2 := (x <<< 1) % 256 % 128
        let y2 := (y <<< 1) % 256 % 64
        let r := pairs.foldl (fun (acc : List (List Nat) × Bool) pc =>
            let dr := drawWrapPairsGo 112 x2 (acc.1.getD pc.1 []) y2 0
                (pc.2.map doubleBitsHolger) false
            (acc.1.set pc.1 dr.1, acc.2 || dr.2)) (s.data, false)
        .ok ({ s with data := r.1 }, r.2)

/-- Embeds `XoChipScreen::draw_large_sprite`: wrapping, one 32-byte chunk
per enabled plane, boolean collision returned as `0` or `1`. -/
def XoChipScreen.drawLargeSprite (s : XoChipScreen) (x y : Nat)
    (sprite : List (List Nat)) : XoChipScreen × Nat :=
  if s.hires then
    let pairs := s.selPlanes.zip sprite
    let r := pairs.foldl (fun (acc : List (List Nat) × Bool) pc =>
        let dr := drawWrapGo 112 (x % 128) (acc.1.getD pc.1 []) (y % 64) 0
            (bytesToWords pc.2) false
        (acc.1.set pc.1 dr.1, acc.2 || dr.2)) (s.data, false)
    ({ s with data := r.1 }, if r.2 then 1 else 0)
  else
    let x2 := (x <<< 1) % 256 % 128
    let y2 := (y <<< 1) % 256 % 64
    let pairs := s.selPlanes.zip sprite
    let r := pairs.foldl (fun (acc : List (List Nat) × Bool) pc =>
        let dr := drawWrapPairsGo 96 x2 (acc.1.getD pc.1 []) y2 0
            ((bytesToWords pc.2).map doubleBitsMagic) false
        (acc.1.set pc.1 dr.1, acc.2 || dr.2)) (s.data, false)
    ({ s with data := r.1 }, if r.2 then 1 else 0)

/-- Embeds `XoChipScreen::scroll_down` over the enabled planes (doubled in
lores). -/
def XoChipScreen.scrollDown (s : XoChipScreen) (amount : Nat) : XoChipScreen :=
  let amount := if s.hires then amount else amount * 2
  if amount > 0 then
    { s with data := (List.range 4).map (fun p =>
        let rows := s.data.getD p []
        if s.enabledPlanes.getD p false then
          List.replicate amount 0 ++ rows.take (64 - amount)
        else rows) }
  else s

/-- Embeds `XoChipScreen::scroll_up` over the enabled planes (doubled in
lores). -/
def XoChipScreen.scrollUp (s : XoChipScreen) (amount : Nat) : XoChipScreen :=
  let amount := if s.hires then amount else amount * 2
  if amount > 0 then
    { s with data := (List.range 4).map (fun p =>
        let rows := s.data.getD p []
        if s.enabledPlanes.getD p false then
          rows.drop amount ++ List.replicate amount 0
        else rows) }
  else s

/-- Embeds `XoChipScreen::scroll_right` (4 hires / 8 lores). -/
def XoChipScreen.scrollRight (s : XoChipScreen) : XoChipScreen :=
  let amount := if s.hires then 4 else 8
  { s with data := (List.range 4).map (fun p =>
      let rows := s.data.getD p []
      if s.enabledPlanes.getD p false then
        rows.map (fun line => line >>> amount)
      else rows) }

/-- Embeds `XoChipScreen::scroll_left` (4 hires / 8 lores). -/
def XoChipScreen.scrollLeft (s : XoChipScreen) : XoChipScreen :=
  let amount := if s.hires then 4 else 8
  { s with data := (List.range 4).map (fun p =>
      let rows := s.data.getD p []
      if s.enabledPlanes.getD p false then
        rows.map (fun line => line <<< amount % 2 ^ 128)
      else rows) }

/-- Embeds `XoChipScreen::clear` (blank only the enabled planes). -/
def XoChipScreen.clear (s : XoChipScreen) : XoChipScreen :=
  { s with data := (List.range 4).map (fun p =>
      if s.enabledPlanes.getD p false then List.replicate 64 0
      else s.data.getD p []) }

/-- Embeds `screen::DynamicScreen`: the four concrete screen types behind
the `Screen` trait.  Methods a screen does not implement fall back to the
trait defaults, which return `UnsupportedScreenOperation`. -/
inductive ScreenState
  | cosmacVip (s : CosmacVipScreen)
  | legacySuperChip (s : LegacySuperChipScreen)
  | modernSuperChip (s : ModernSuperChipScreen)
  | xoChip (s : XoChipScreen)
deriving DecidableEq

/-- Dispatches `Screen::get_hires` (trait default `false` for the VIP). -/
def ScreenState.getHires : ScreenState → Bool
  | .cosmacVip _ => false
  | .legacySuperChip s => s.hires
  | .modernSuperChip s => s.hires
  | .xoChip s => s.hires

/-- Dispatches `Screen::set_hires`. -/
def ScreenState.setHires : ScreenState → Bool → Except Fail ScreenState
  | .cosmacVip _, _ => .error (.err (.unsupportedScreenOperation .hiresMode))
  | .legacySuperChip s, h => .ok (.legacySuperChip { s with hires := h })
  | .modernSuperChip s, h => .ok (.modernSuperChip { s with hires := h })
  | .xoChip s, h => .ok (.xoChip { s with hires := h })

/-- Dispatches `Screen::set_planes` (XO-CHIP only). -/
def ScreenState.setPlanes : ScreenState → Nat → Except Fail ScreenState
  | .xoChip s, p => .ok (.xoChip (s.setPlanes p))
  | _, _ => .error (.err (.unsupportedScreenOperation .setPlanes))

/-- Dispatches `Screen::num_active_planes` (trait default `1`). -/
def ScreenState.numActivePlanes : ScreenState → Nat
  | .xoChip s => s.numActivePlanes
  | _ => 1

/-- Dispatches `Screen::clear`. -/
def ScreenState.clear : ScreenState → ScreenState
  | .cosmacVip _ => .cosmacVip ⟨List.replicate 32 0⟩
  | .legacySuperChip s => .legacySuperChip { s with data := List.replicate 64 0 }
  | .modernSuperChip s => .modernSuperChip { s with data := List.replicate 64 0 }
  | .xoChip s => .xoChip s.clear

/-- Dispatches `Screen::draw_sprite` (fallible only through the XO-CHIP
panic). -/
def ScreenState.drawSprite : ScreenState → Nat → Nat → List Nat →
    Except Fail (ScreenState × Bool)
  | .cosmacVip s, x, y, sp =>
    let r := s.drawSprite x y sp
    .ok (.cosmacVip r.1, r.2)
  | .legacySuperChip s, x, y, sp =>
    let r := s.drawSprite x y sp
    .ok (.legacySuperChip r.1, r.2)
  | .modernSuperChip s, x, y, sp =>
    let r := s.drawSprite x y sp
    .ok (.modernSuperChip r.1, r.2)
  | .xoChip s, x, y, sp =>
    match s.drawSprite x y sp with
    | .ok r => .ok (.xoChip r.1, r.2)
    | .error e => .error e

/-- Dispatches `Screen::draw_large_sprite` (trait default: unsupported,
used by the VIP screen). -/
def ScreenState.drawLargeSprite : ScreenState → Nat → Nat →
    List (List Nat) → Except Fail (ScreenState × Nat)
  | .cosmacVip _, _, _, _ =>
    .error (.err (.unsupportedScreenOperation .largeSprite))
  | .legacySuperChip s, x, y, sp =>
    match s.drawLargeSprite x y sp with
    | .ok r => .ok (.legacySuperChip r.1, r.2)
    | .error e => .error e
  | .modernSuperChip s, x, y, sp =>
    match s.drawLargeSprite x y sp with
    | .ok r => .ok (.modernSuperChip r.1, r.2)
    | .error e => .error e
  | .xoChip s, x, y, sp =>
    let r := s.drawLargeSprite x y sp
    .ok (.xoChip r.1, r.2)

/-- Dispatches `Screen::scroll_down`. -/
def ScreenState.scrollDown : ScreenState → Nat → Except Fail ScreenState
  | .cosmacVip _, _ => .error (.err (.unsupportedScreenOperation .scrollDown))
  | .legacySuperChip s, n => .ok (.legacySuperChip (s.scrollDown n))
  | .modernSuperChip s, n => .ok (.modernSuperChip (s.scrollDown n))
  | .xoChip s, n => .ok (.xoChip (s.scrollDown n))

/-- Dispatches `Screen::scroll_up` (XO-CHIP only; all others use the
trait default). -/
def ScreenState.scrollUp : ScreenState → Nat → Except Fail ScreenState
  | .xoChip s, n => .ok (.xoChip (s.scrollUp n))
  | _, _ => .error (.err (.unsupportedScreenOperation .scrollUp))

/-- Dispatches `Screen::scroll_right`. -/
def ScreenState.scrollRight : ScreenState → Except Fail ScreenState
  | .cosmacVip _ => .error (.err (.unsupportedScreenOperation .scrollRight))
  | .legacySuperChip s => .ok (.legacySuperChip s.scrollRight)
  | .modernSuperChip s => .ok (.modernSuperChip s.scrollRight)
  | .xoChip s => .ok (.xoChip s.scrollRight)

/-- Dispatches `Screen::scroll_left`. -/
def ScreenState.scrollLeft : ScreenState → Except Fail ScreenState
  | .cosmacVip _ => .error (.err (.unsupportedScreenOperation .scrollLeft))
  | .legacySuperChip s => .ok (.legacySuperChip s.scrollLeft)
  | .modernSuperChip s => .ok (.modernSuperChip s.scrollLeft)
  | .xoChip s => .ok (.xoChip s.scrollLeft)

/-- Embeds `hardware::Keypad`: the 16-bit press mask, the `Fx0A` waiting
flag, and the pending key. -/
structure Keypad where
  keys : Nat
  waiting : Bool
  event : Option Nat
deriving DecidableEq

/-- Embeds `Keypad::event` (named `onEvent` because the structure already
has a field called `event`). -/
def Keypad.onEvent (k : Keypad) (key : Nat) (ev testEv : KeyEvent) : Keypad :=
  let wasPressed := decide (k.keys &&& (1 <<< key) ≠ 0)
  let keys := match ev with
    | .press => k.keys ||| (1 <<< key)
    | .release => k.keys &&& (0xFFFF ^^^ (1 <<< key))
  let recordEvent := match ev with
    | .press => !wasPressed
    | .release => wasPressed
  if recordEvent && ev = testEv then
    { k with keys, event := some (min (k.event.getD key) key) }
  else
    { k with keys }

/-- Embeds `Keypad::test_event`. -/
def Keypad.testEvent (k : Keypad) : Option Nat × Keypad :=
  match k.waiting, k.event with
  | true, some key => (some key, { k with waiting := false })
  | true, none => (none, k)
  | false, _ => (none, { k with waiting := true, event := none })

/-- Embeds `Keypad::is_pressed` (key byte masked to its low nibble). -/
def Keypad.isPressed (k : Keypad) (key : Nat) : Bool :=
  decide (k.keys &&& (1 <<< (key &&& 0xF)) ≠ 0)

/-- Embeds `hardware::Cpu`.  `sp` is a `u4` in Rust; here it is a `Nat`
kept below 16 by the stack operations. -/
structure Cpu where
  v : List Nat
  i : Nat
  dt : Nat
  st : Nat
  pc : Nat
  sp : Nat
  stack : List Nat
deriving DecidableEq

/-- Embeds `Cpu::default`. -/
def Cpu.initial : Cpu :=
  ⟨List.replicate 16 0, 0, 0, 0, 0x200, 0, List.replicate 16 0⟩

/-- Embeds `Cpu::get_v`. -/
def Cpu.getV (c : Cpu) (r : Nat) : Nat := c.v.getD r 0

/-- Embeds `Cpu::set_v`. -/
def Cpu.setV (c : Cpu) (r val : Nat) : Cpu := { c with v := c.v.set r val }

/-- Embeds `Cpu::push_stack`: guard against `sp == u4::MAX`,
pre-increment, then store the return address. -/
def Cpu.pushStack (c : Cpu) : Except Fail Cpu :=
  if c.sp = 15 then .error (.err .stackFull)
  else
    let sp := c.sp + 1
    .ok { c with sp, stack := c.stack.set sp c.pc }

/-- Embeds `Cpu::pop_stack`: guard against `sp == u4::MIN`, read, then
decrement. -/
def Cpu.popStack (c : Cpu) : Except Fail Cpu :=
  if c.sp = 0 then .error (.err .stackEmpty)
  else .ok { c with pc := c.stack.getD c.sp 0, sp := c.sp - 1 }

/-- Embeds `Cpu::inc_pc` (`checked_add` on the `u16` program counter). -/
def Cpu.incPc (c : Cpu) : Except Fail Cpu :=
  if c.pc + 2 ≤ 0xFFFF then .ok { c with pc := c.pc + 2 }
  else .error (.err (.pcOverflow (c.pc + 2)))

/-- Embeds `Cpu::dec_pc`. -/
def Cpu.decPc (c : Cpu) : Cpu := { c with pc := c.pc - 2 }

/-- Embeds `Cpu::arithmetic_op`. -/
def Cpu.arithmeticOp (c : Cpu) (x y : Nat) (f : Nat → Nat → Nat)
    (resetVf : Bool) : Cpu :=
  let c := c.setV x (f (c.getV x) (c.getV y))
  if resetVf then { c with v := c.v.set 0xF 0 } else c

/-- Embeds `Cpu::arithmetic_op_vf`: the primary register is written first,
the flag second. -/
def Cpu.arithmeticOpVf (c : Cpu) (x y : Nat)
    (f : Nat → Nat → Nat × Bool) : Cpu :=
  let r := f (c.getV x) (c.getV y)
  let c := c.setV x r.1
  { c with v := c.v.set 0xF (if r.2 then 1 else 0) }

/-- Embeds `model::Model`: the per-variant data the interpreter reads. -/
structure Model where
  instructionSet : InstructionSet
  memorySize : Nat
  quirks : Quirks
deriving DecidableEq

/-- Embeds `CosmacVip::QUIRKS`. -/
def cosmacVipQuirks : Quirks :=
  ⟨false, true, .release, true, true, .always, false, false, true⟩

/-- Embeds `LegacySuperChip::QUIRKS`. -/
def legacySuperChipQuirks : Quirks :=
  ⟨false, false, .release, false, false, .loresOnly, false, true, true⟩

/-- Embeds `ModernSuperChip::QUIRKS`. -/
def modernSuperChipQuirks : Quirks :=
  ⟨false, false, .release, false, false, .never, true, true, false⟩

/-- Embeds `XoChip::QUIRKS`. -/
def xoChipQuirks : Quirks :=
  ⟨false, true, .release, true, false, .never, true, false, false⟩

/-- The `CosmacVip` model with default quirks (memory size 0x1000). -/
def cosmacVipModel : Model := ⟨.cosmacVip, 0x1000, cosmacVipQuirks⟩

/-- The `LegacySuperChip` model with default quirks. -/
def legacySuperChipModel : Model := ⟨.superChip, 0x1000, legacySuperChipQuirks⟩

/-- The `ModernSuperChip` model with default quirks. -/
def modernSuperChipModel : Model := ⟨.superChip, 0x1000, modernSuperChipQuirks⟩

/-- The `XoChip` model with default quirks (memory size 0x10000). -/
def xoChipModel : Model := ⟨.xoChip, 0x10000, xoChipQuirks⟩

/-- Embeds `screen::FONT_ADDRESS`. -/
def FONT_ADDRESS : Nat := 0

/-- Embeds `screen::FONT`. -/
def FONT : List (List Nat) := [
  [0xF0, 0x90, 0x90, 0x90, 0xF0],
  [0x20, 0x60, 0x20, 0x20, 0x70],
  [0xF0, 0x10, 0xF0, 0x80, 0xF0],
  [0xF0, 0x10, 0xF0, 0x10, 0xF0],
  [0x90, 0x90, 0xF0, 0x10, 0x10],
  [0xF0, 0x80, 0xF0, 0x10, 0xF0],
  [0xF0, 0x80, 0xF0, 0x90, 0xF0],
  [0xF0, 0x10, 0x20, 0x40, 0x40],
  [0xF0, 0x90, 0xF0, 0x90, 0xF0],
  [0xF0, 0x90, 0xF0, 0x10, 0xF0],
  [0xF0, 0x90, 0xF0, 0x90, 0x90],
  [0xE0, 0x90, 0xE0, 0x90, 0xE0],
  [0xF0, 0x80, 0x80, 0x80, 0xF0],
  [0xE0, 0x90, 0x90, 0x90, 0xE0],
  [0xF0, 0x80, 0xF0, 0x80, 0xF0],
  [0xF0, 0x80, 0xF0, 0x80, 0x80]]

/-- Embeds `screen::XOCHIP_HIRES_FONT_ADDRESS` (`FONT_ADDRESS + 80`). -/
def XOCHIP_HIRES_FONT_ADDRESS : Nat := FONT_ADDRESS + 80

/-- Embeds `screen::XOCHIP_HIRES_FONT`. -/
def XOCHIP_HIRES_FONT : List (List Nat) := [
  [0x3C, 0x7E, 0x66, 0x66, 0x6E, 0x76, 0x66, 0x66, 0x7E, 0x3C],
  [0x0C, 0x1C, 0x3C, 0x6C, 0x0C, 0x0C, 0x0C, 0x0C, 0x7E, 0x7E],
  [0x3C, 0x7E, 0x66, 0x06, 0x0E, 0x1C, 0x38, 0x70, 0x7E, 0x7E],
  [0x3C, 0x7E, 0x66, 0x06, 0x1C, 0x1C, 0x06, 0x66, 0x7E, 0x3C],
  [0x6C, 0x6C, 0x6C, 0x6C, 0x7E, 0x7E, 0x0C, 0x0C, 0x0C, 0x0C],
  [0x7C, 0x7C, 0x60, 0x60, 0x7C, 0x3E, 0x06, 0x66, 0x7E, 0x3C],
  [0x3C, 0x7E, 0x66, 0x60, 0x7C, 0x7E, 0x66, 0x66, 0x7E, 0x3C],
  [0x7E, 0x7E, 0x06, 0x0E, 0x0C, 0x18, 0x18, 0x30, 0x30, 0x30],
  [0x3C, 0x7E, 0x66, 0x66, 0x3C, 0x3C, 0x66, 0x66, 0x7E, 0x3C],
  [0x3C, 0x7E, 0x66, 0x66, 0x7E, 0x3E, 0x06, 0x66, 0x7E, 0x3C],
  [0x3C, 0x7E, 0x66, 0x66, 0x7E, 0x7E, 0x66, 0x66, 0x66, 0x66],
  [0x7C, 0x7E, 0x66, 0x66, 0x7C, 0x7C, 0x66, 0x66, 0x7E, 0x7C],
  [0x3C, 0x7E, 0x66, 0x66, 0x60, 0x60, 0x66, 0x66, 0x7E, 0x3C],
  [0x7C, 0x7E, 0x66, 0x66, 0x66, 0x66, 0x66, 0x66, 0x7E, 0x7C],
  [0x7E, 0x7E, 0x60, 0x60, 0x78, 0x78, 0x60, 0x60, 0x7E, 0x7E],
  [0x7E, 0x7E, 0x60, 0x60, 0x78, 0x78, 0x60, 0x60, 0x60, 0x60]]

/-- Embeds `frontend::audio::DEFAULT_PATTERN`
(`0x007FC01FF01FC07F007FC01FF01FC07F` in big-endian bytes). -/
def DEFAULT_PATTERN : List Nat :=
  [0x00, 0x7F, 0xC0, 0x1F, 0xF0, 0x1F, 0xC0, 0x7F,
   0x00, 0x7F, 0xC0, 0x1F, 0xF0, 0x1F, 0xC0, 0x7F]

/-- Overwrite `bytes.length` memory cells starting at `addr`
(`copy_from_slice` on a subslice of memory). -/
def writeBytes (f : Nat → Nat) (addr : Nat) (bytes : List Nat) :
    Nat → Nat :=
  fun j => if addr ≤ j ∧ j < addr + bytes.length then bytes.getD (j - addr) 0
    else f j

/-- Embeds `hardware::Chip8`.  Memory is a function from addresses to
bytes together with the model's memory size; the RNG drawn from the OS in
`Chip8::new` is modelled as an explicit stream with a cursor. -/
structure Machine where
  model : Model
  keypad : Keypad
  cpu : Cpu
  memory : Nat → Nat
  screen : ScreenState
  rngStream : Nat → Nat
  rngIdx : Nat
  vblank : Bool
  rpl : List Nat
  pitch : Nat
  audioPattern : List Nat

/-- Embeds `Chip8::new`: zeroed memory, the two fonts at their fixed
addresses, the ROM at 0x200 (truncated with a warning when too big), and
the default register, keypad, vblank, RPL, pitch and audio state. -/
def Chip8.new (model : Model) (screen : ScreenState) (rom : List Nat)
    (rng : Nat → Nat) : Machine :=
  let mem0 := writeBytes (fun _ => 0) FONT_ADDRESS FONT.flatten
  let mem1 := writeBytes mem0 XOCHIP_HIRES_FONT_ADDRESS
      XOCHIP_HIRES_FONT.flatten
  let mem2 := if 0x200 + rom.length ≤ model.memorySize then
      writeBytes mem1 0x200 rom
    else writeBytes mem1 0x200 (rom.take (model.memorySize - 0x200))
  { model
    keypad := ⟨0, false, none⟩
    cpu := Cpu.initial
    memory := mem2
    screen
    rngStream := rng
    rngIdx := 0
    vblank := false
    rpl := List.replicate 16 0
    pitch := 64
    audioPattern := DEFAULT_PATTERN }

/-- Embeds `model::DynamicModel` (the four supported variants). -/
inductive DynKind
  | cosmacVip
  | legacySuperChip
  | modernSuperChip
  | xoChip
deriving DecidableEq

/-- Embeds `DynamicMachine::new`: pair each model with its default screen
(`XoChipScreen::default` enables only the plane of mask bit 0). -/
def DynamicMachine.new (k : DynKind) (rom : List Nat) (rng : Nat → Nat) :
    Machine :=
  match k with
  | .cosmacVip =>
    Chip8.new cosmacVipModel (.cosmacVip ⟨List.replicate 32 0⟩) rom rng
  | .legacySuperChip =>
    Chip8.new legacySuperChipModel
      (.legacySuperChip ⟨List.replicate 64 0, false⟩) rom rng
  | .modernSuperChip =>
    Chip8.new modernSuperChipModel
      (.modernSuperChip ⟨List.replicate 64 0, false⟩) rom rng
  | .xoChip =>
    Chip8.new xoChipModel
      (.xoChip ⟨List.replicate 4 (List.replicate 64 0),
        [false, false, false, true], false⟩) rom rng

/-- The interpreter monad: state-passing over `Machine` where an error
keeps the state mutated so far, exactly as a Rust `&mut self` method
returning `Result` does. -/
abbrev M (α : Type) := EStateM Fail Machine α

/-- Throw a failure, keeping the current machine state. -/
def throwM {α : Type} (e : Fail) : M α := fun m => .error e m

/-- Run a CPU operation that can fail (`push_stack`, `pop_stack`,
`inc_pc`); these do not mutate the CPU before failing. -/
def liftCpu (f : Cpu → Except Fail Cpu) : M Unit := fun m =>
  match f m.cpu with
  | .ok c => .ok () { m with cpu := c }
  | .error e => .error e m

/-- Apply an infallible CPU mutation. -/
def modifyCpu (f : Cpu → Cpu) : M Unit := fun m =>
  .ok () { m with cpu := f m.cpu }

/-- Run a failing screen operation (scrolls, mode/plane switches). -/
def liftScreen (f : ScreenState → Except Fail ScreenState) : M Unit :=
  fun m =>
    match f m.screen with
    | .ok s => .ok () { m with screen := s }
    | .error e => .error e m

/-- Run `Screen::draw_sprite`, storing the new screen and returning the
collision flag. -/
def liftDrawSprite (x y : Nat) (sprite : List Nat) : M Bool := fun m =>
  match m.screen.drawSprite x y sprite with
  | .ok r => .ok r.2 { m with screen := r.1 }
  | .error e => .error e m

/-- Run `Screen::draw_large_sprite`, storing the new screen and returning
the collision byte. -/
def liftDrawLargeSprite (x y : Nat) (sprite : List (List Nat)) : M Nat :=
  fun m =>
    match m.screen.drawLargeSprite x y sprite with
    | .ok r => .ok r.2 { m with screen := r.1 }
    | .error e => .error e m

/-- Embeds `Chip8::mem_slice`: `memory.get(start..stop)` with an
`InvalidMemoryRange` error when the range is out of bounds. -/
def Machine.memSlice (m : Machine) (start stop : Nat) :
    Except Fail (List Nat) :=
  if start ≤ stop ∧ stop ≤ m.model.memorySize then
    .ok ((List.range (stop - start)).map (fun j => m.memory (start + j)))
  else .error (.err (.invalidMemoryRange start stop m.model.memorySize))

/-- Embeds `Chip8::mem_slice_mut` followed by `copy_from_slice`. -/
def Machine.memWrite (m : Machine) (start : Nat) (bytes : List Nat) :
    Except Fail Machine :=
  if start + bytes.length ≤ m.model.memorySize then
    .ok { m with memory := writeBytes m.memory start bytes }
  else .error (.err (.invalidMemoryRange start (start + bytes.length)
      m.model.memorySize))

/-- Monadic `mem_slice` (reads do not mutate). -/
def memSliceM (start stop : Nat) : M (List Nat) := fun m =>
  match m.memSlice start stop with
  | .ok l => .ok l m
  | .error e => .error e m

/-- Monadic `mem_slice_mut` + `copy_from_slice`. -/
def memWriteM (start : Nat) (bytes : List Nat) : M Unit := fun m =>
  match m.memWrite start bytes with
  | .ok m' => .ok () m'
  | .error e => .error e m

/-- Embeds `Chip8::read_word`: two bytes at `pc`, big-endian. -/
def readWord : M Nat := do
  let m ← get
  let bytes ← memSliceM m.cpu.pc (m.cpu.pc + 2)
  pure (bytes.getD 0 0 * 256 + bytes.getD 1 0)

/-- Embeds `Chip8::draw_wait_for_vblank`. -/
def Machine.drawWaitForVblank (m : Machine) : Bool :=
  m.model.quirks.drawWaitForVblank.wait m.screen.getHires

/-- Embeds `Chip8::skip_if`: on a true condition, look ahead (XO-CHIP tier
only) and skip 4 bytes over a `0xF000` double word, else 2. -/
def Machine.skipIf (condition : Bool) : M Unit := do
  if condition then
    let m ← get
    if m.model.instructionSet.atLeast .xoChip then
      let w ← readWord
      if w = 0xF000 then liftCpu Cpu.incPc
    liftCpu Cpu.incPc

/-- Embeds `hardware::bcd`. -/
def bcd (x : Nat) : List Nat := [x / 100, x / 10 % 10, x % 10]

/-- Overwrite `seg.length` registers starting at `lo` (the
`copy_from_slice` into a register subrange used by `5xy3`, `Fx65`,
`Fx85`). -/
def vWriteRange (v : List Nat) (lo : Nat) (seg : List Nat) : List Nat :=
  v.take lo ++ seg ++ v.drop (lo + seg.length)

/-- Embeds the decode/execute match of `Chip8::tick` (the big `match` on
`(disc1, x, y, n, instruction_set)` after the fetch and the `pc`
increment).  Arms are in source order; arms the source `return`s from
early produce `true` (clean exit) or throw, all others fall through to
`false`.  The `Instruction` values the source assigns to `_` are erased. -/
def Chip8.execute (word : Nat) : M Bool := do
  let m ← get
  let d1 := word >>> 12
  let x := (word >>> 8) &&& 0xF
  let y := (word >>> 4) &&& 0xF
  let n := word &&& 0xF
  let kk := word &&& 0xFF
  let nnn := word &&& 0xFFF
  let q := m.model.quirks
  match d1, x, y, n, m.model.instructionSet with
  | 0x0, 0x0, 0x0, 0x0, _ =>
    if q.gracefulExitOn0000 then pure true
    else throwM (.err (.invalidInstruction word))
  | 0x0, 0x0, 0xC, _, .superChip | 0x0, 0x0, 0xC, _, .xoChip => do
    liftScreen (fun s => s.scrollDown n)
    pure false
  | 0x0, 0x0, 0xD, _, .xoChip => do
    liftScreen (fun s => s.scrollUp n)
    pure false
  | 0x0, 0x0, 0xE, 0x0, _ => do
    modify (fun m' => { m' with screen := m'.screen.clear })
    pure false
  | 0x0, 0x0, 0xE, 0xE, _ => do
    liftCpu Cpu.popStack
    pure false
  | 0x0, 0x0, 0xF, 0xB, .superChip | 0x0, 0x0, 0xF, 0xB, .xoChip => do
    liftScreen ScreenState.scrollRight
    pure false
  | 0x0, 0x0, 0xF, 0xC, .superChip | 0x0, 0x0, 0xF, 0xC, .xoChip => do
    liftScreen ScreenState.scrollLeft
    pure false
  | 0x0, 0x0, 0xF, 0xD, .superChip | 0x0, 0x0, 0xF, 0xD, .xoChip =>
    pure true
  | 0x0, 0x0, 0xF, 0xE, .superChip | 0x0, 0x0, 0xF, 0xE, .xoChip => do
    liftScreen (fun s => s.setHires false)
    if q.clearScreenOnModeSwitch then
      modify (fun m' => { m' with screen := m'.screen.clear })
    pure false
  | 0x0, 0x0, 0xF, 0xF, .superChip | 0x0, 0x0, 0xF, 0xF, .xoChip => do
    liftScreen (fun s => s.setHires true)
    if q.clearScreenOnModeSwitch then
      modify (fun m' => { m' with screen := m'.screen.clear })
    pure false
  | 0x1, _, _, _, _ => do
    modifyCpu (fun c => { c with pc := nnn })
    pure false
  | 0x2, _, _, _, _ => do
    liftCpu Cpu.pushStack
    modifyCpu (fun c => { c with pc := nnn })
    pure false
  | 0x3, _, _, _, _ => do
    Machine.skipIf (decide (m.cpu.getV x = kk))
    pure false
  | 0x4, _, _, _, _ => do
    Machine.skipIf (decide (m.cpu.getV x ≠ kk))
    pure false
  | 0x5, _, _, 0x0, _ => do
    Machine.skipIf (decide (m.cpu.getV x = m.cpu.getV y))
    pure false
  | 0x5, _, _, 0x2, .xoChip => do
    let base := if y ≥ x then (m.cpu.v.drop x).take (y - x + 1)
      else ((m.cpu.v.drop y).take (x - y + 1)).reverse
    memWriteM m.cpu.i base
    pure false
  | 0x5, _, _, 0x3, .xoChip => do
    let len := max x y - min x y + 1
    let slice ← memSliceM m.cpu.i (m.cpu.i + len)
    modifyCpu (fun c =>
      let seg := if y ≥ x then slice else slice.reverse
      { c with v := vWriteRange c.v (min x y) seg })
    pure false
  | 0x6, _, _, _, _ => do
    modifyCpu (fun c => c.setV x kk)
    pure false
  | 0x7, _, _, _, _ => do
    modifyCpu (fun c => c.setV x ((c.getV x + kk) % 256))
    pure false
  | 0x8, _, _, 0x0, _ => do
    modifyCpu (fun c => c.setV x (c.getV y))
    pure false
  | 0x8, _, _, 0x1, _ => do
    modifyCpu (fun c =>
      c.arithmeticOp x y (fun a b => a ||| b) q.bitwiseResetFlag)
    pure false
  | 0x8, _, _, 0x2, _ => do
    modifyCpu (fun c =>
      c.arithmeticOp x y (fun a b => a &&& b) q.bitwiseResetFlag)
    pure false
  | 0x8, _, _, 0x3, _ => do
    modifyCpu (fun c =>
      c.arithmeticOp x y (fun a b => a ^^^ b) q.bitwiseResetFlag)
    pure false
  | 0x8, _, _, 0x4, _ => do
    modifyCpu (fun c => c.arithmeticOpVf x y
      (fun a b => ((a + b) % 256, decide (a + b ≥ 256))))
    pure false
  | 0x8, _, _, 0x5, _ => do
    modifyCpu (fun c => c.arithmeticOpVf x y
      (fun a b => ((a + 256 - b) % 256, decide (¬ a < b))))
    pure false
  | 0x8, _, _, 0x6, _ => do
    modifyCpu (fun c => c.arithmeticOpVf x
      (if q.bitshiftUseY then y else x)
      (fun _ b => (b >>> 1, decide (b &&& 0b1 ≠ 0))))
    pure false
  | 0x8, _, _, 0x7, _ => do
    modifyCpu (fun c => c.arithmeticOpVf x y
      (fun a b => ((b + 256 - a) % 256, decide (¬ b < a))))
    pure false
  | 0x8, _, _, 0xE, _ => do
    modifyCpu (fun c => c.arithmeticOpVf x
      (if q.bitshiftUseY then y else x)
      (fun _ b => (b <<< 1 % 256, decide (b &&& 0b10000000 ≠ 0))))
    pure false
  | 0x9, _, _, 0x0, _ => do
    Machine.skipIf (decide (m.cpu.getV x ≠ m.cpu.getV y))
    pure false
  | 0xA, _, _, _, _ => do
    modifyCpu (fun c => { c with i := nnn })
    pure false
  | 0xB, _, _, _, _ => do
    let offset := m.cpu.getV (if q.jumpV0UseVx then x else 0)
    modifyCpu (fun c => { c with pc := nnn + offset })
    pure false
  | 0xC, _, _, _, _ => do
    modify (fun m' => { m' with
      cpu := m'.cpu.setV x (m'.rngStream m'.rngIdx % 256 &&& kk),
      rngIdx := m'.rngIdx + 1 })
    pure false
  | 0xD, _, _, 0x0, .superChip | 0xD, _, _, 0x0, .xoChip => do
    if m.drawWaitForVblank && !m.vblank then
      modifyCpu Cpu.decPc
    else
      let xVal := m.cpu.getV x
      let yVal := m.cpu.getV y
      if q.loresDrawLargeAsSmall && !m.screen.getHires then
        let len := 16 * m.screen.numActivePlanes
        let slice ← memSliceM m.cpu.i (m.cpu.i + len)
        let col ← liftDrawSprite xVal yVal slice
        modifyCpu (fun c =>
          { c with v := c.v.set 0xF (if col then 1 else 0) })
      else
        let len := 32 * m.screen.numActivePlanes
        let slice ← memSliceM m.cpu.i (m.cpu.i + len)
        let cnt ← liftDrawLargeSprite xVal yVal (listChunks 32 slice)
        modifyCpu (fun c => { c with v := c.v.set 0xF cnt })
    pure false
  | 0xD, _, _, _, _ => do
    if m.drawWaitForVblank && !m.vblank then
      modifyCpu Cpu.decPc
    else
      let xVal := m.cpu.getV x
      let yVal := m.cpu.getV y
      let len := n * m.screen.numActivePlanes
      let slice ← memSliceM m.cpu.i (m.cpu.i + len)
      let col ← liftDrawSprite xVal yVal slice
      modifyCpu (fun c =>
        { c with v := c.v.set 0xF (if col then 1 else 0) })
    pure false
  | 0xE, _, 0x9, 0xE, _ => do
    Machine.skipIf (m.keypad.isPressed (m.cpu.getV x))
    pure false
  | 0xE, _, 0xA, 0x1, _ => do
    Machine.skipIf (!m.keypad.isPressed (m.cpu.getV x))
    pure false
  | 0xF, 0x0, 0x0, 0x0, .xoChip => do
    let addr ← readWord
    liftCpu Cpu.incPc
    modifyCpu (fun c => { c with i := addr })
    pure false
  | 0xF, _, 0x0, 0x1, .xoChip => do
    liftScreen (fun s => s.setPlanes x)
    pure false
  | 0xF, 0x0, 0x0, 0x2, .xoChip => do
    let slice ← memSliceM m.cpu.i (m.cpu.i + 16)
    modify (fun m' => { m' with audioPattern := slice })
    pure false
  | 0xF, _, 0x0, 0x7, _ => do
    modifyCpu (fun c => c.setV x c.dt)
    pure false
  | 0xF, _, 0x0, 0xA, _ => do
    let r := m.keypad.testEvent
    modify (fun m' => { m' with keypad := r.2 })
    match r.1 with
    | some key => modifyCpu (fun c => c.setV x key)
    | none => modifyCpu Cpu.decPc
    pure false
  | 0xF, _, 0x1, 0x5, _ => do
    modifyCpu (fun c => { c with dt := c.getV x })
    pure false
  | 0xF, _, 0x1, 0x8, _ => do
    modifyCpu (fun c => { c with st := c.getV x })
    pure false
  | 0xF, _, 0x1, 0xE, _ => do
    modifyCpu (fun c => { c with i := (c.i + c.getV x) % 0x10000 })
    pure false
  | 0xF, _, 0x2, 0x9, _ => do
    modifyCpu (fun c => { c with i := (c.getV x &&& 0xF) * 5 + FONT_ADDRESS })
    pure false
  | 0xF, _, 0x3, 0x0, .superChip | 0xF, _, 0x3, 0x0, .xoChip => do
    modifyCpu (fun c =>
      { c with i := (c.getV x &&& 0xF) * 10 + XOCHIP_HIRES_FONT_ADDRESS })
    pure false
  | 0xF, _, 0x3, 0x3, _ => do
    memWriteM m.cpu.i (bcd (m.cpu.getV x))
    pure false
  | 0xF, _, 0x3, 0xA, .xoChip => do
    modify (fun m' => { m' with pitch := m'.cpu.getV x })
    pure false
  | 0xF, _, 0x5, 0x5, _ => do
    memWriteM m.cpu.i (m.cpu.v.take (x + 1))
    if q.incIOnSlice then
      modifyCpu (fun c => { c with i := (c.i + (x + 1)) % 0x10000 })
    pure false
  | 0xF, _, 0x6, 0x5, _ => do
    let slice ← memSliceM m.cpu.i (m.cpu.i + (x + 1))
    modifyCpu (fun c => { c with v := vWriteRange c.v 0 slice })
    if q.incIOnSlice then
      modifyCpu (fun c => { c with i := (c.i + (x + 1)) % 0x10000 })
    pure false
  | 0xF, _, 0x7, 0x5, .superChip | 0xF, _, 0x7, 0x5, .xoChip => do
    modify (fun m' =>
      { m' with rpl := vWriteRange m'.rpl 0 (m'.cpu.v.take (x + 1)) })
    pure false
  | 0xF, _, 0x8, 0x5, .superChip | 0xF, _, 0x8, 0x5, .xoChip => do
    modifyCpu (fun c => { c with v := vWriteRange c.v 0 (m.rpl.take (x + 1)) })
    pure false
  | _, _, _, _, _ => do
    modifyCpu Cpu.decPc
    throwM (.err (.invalidInstruction word))

/-- Embeds the fetch and advance steps of `Chip8::tick`: read the word at
`pc`, increment `pc`, then decode and execute. -/
def Chip8.tickInner : M Bool := do
  let word ← readWord
  liftCpu Cpu.incPc
  Chip8.execute word

/-- Embeds `Chip8::tick`: after a fall-through (non-exit, non-error)
execution the vblank flag is lowered; an early `return Ok(true)` skips
that step. -/
def Chip8.tick : M Bool := do
  let exit ← Chip8.tickInner
  if exit then pure true
  else do
    modify (fun m => if m.vblank then { m with vblank := false } else m)
    pure false

/-- Embeds the default `Machine::tick_many`: `tick` is called `count`
times with `?`, so an error stops the loop, but the clean-exit flag each
`tick` returns is discarded (the early-return on exit is commented out in
the source) and the result is always `Ok(false)`. -/
def Machine.tickMany : Nat → M Bool
  | 0 => pure false
  | count + 1 => do
    let _ ← Chip8.tick
    Machine.tickMany count

/-- Embeds `Chip8::event`: resolve a host key event against the model's
`key_wait_trigger`. -/
def Machine.onKeyEvent (m : Machine) (key : Nat) (ev : KeyEvent) : Machine :=
  { m with keypad := m.keypad.onEvent key ev m.model.quirks.keyWaitTrigger }

/-- Embeds the state effects of `Chip8::render_frame`: decrement the two
timers toward zero and raise the vblank flag (the RGBA image itself is
not modelled). -/
def Machine.renderFrame (m : Machine) : Machine :=
  let m := if m.cpu.dt > 0 then { m with cpu := { m.cpu with dt := m.cpu.dt - 1 } }
    else m
  let m := if m.cpu.st > 0 then { m with cpu := { m.cpu with st := m.cpu.st - 1 } }
    else m
  { m with vblank := true }

/-- Iterate `tick` from a machine state, stopping at the first error or
clean exit: the reference run used to state whole-program scenarios. -/
def runTicks : Nat → Machine → EStateM.Result Fail Machine Bool
  | 0, m => .ok false m
  | k + 1, m =>
    match Chip8.tick m with
    | .ok true m' => .ok true m'
    | .ok false m' => runTicks k m'
    | .error e m' => .error e m'

/-- Inner loop of the claimed `tick_many` behavior: execute up to `n`
opcodes, stopping early on a clean exit. -/
def specTickManyGo : Nat → M Bool
  | 0 => pure false
  | n + 1 => do
    let exit ← Chip8.tick
    if exit then pure true else specTickManyGo n

/-- Modelled from the spec: "`tick_many(n)` executes up to `n` with a
vblank raise before the first and clearance after", stopping early on a
clean exit.  This is the claimed behavior of `Machine::tick_many`,
embedded from the spec's words for comparison against the actual
`Machine.tickMany` above. -/
def specTickMany (n : Nat) : M Bool := do
  modify (fun m => { m with vblank := true })
  let r ← specTickManyGo n
  modify (fun m => { m with vblank := false })
  pure r

/-- The machine a tick result carries (`&mut self` keeps the state whether
the Rust method returned `Ok` or `Err`). -/
def resMachine : EStateM.Result Fail Machine Bool → Machine
  | .ok _ m => m
  | .error _ m => m

/-- The exit flag of a successful tick result. -/
def resExit : EStateM.Result Fail Machine Bool → Option Bool
  | .ok b _ => some b
  | .error _ _ => none

/-- The failure of an erroring tick result. -/
def resFail : EStateM.Result Fail Machine Bool → Option Fail
  | .ok _ _ => none
  | .error e _ => some e

/-- Row `r` of a COSMAC VIP screen (0 elsewhere). -/
def Machine.vipRow (m : Machine) (r : Nat) : Nat :=
  match m.screen with
  | .cosmacVip s => s.rows.getD r 0
  | _ => 0

/-- Pixel `(cx, cy)` of a COSMAC VIP screen: bit `63 - cx` of row `cy`. -/
def Machine.vipPixel (m : Machine) (cx cy : Nat) : Bool :=
  (m.vipRow cy).testBit (63 - cx)

/-- Row `r` of XO-CHIP plane `p` (0 elsewhere). -/
def Machine.xoPlaneRow (m : Machine) (p r : Nat) : Nat :=
  match m.screen with
  | .xoChip s => (s.data.getD p []).getD r 0
  | _ => 0

/-- Lores pixel `(cx, cy)` of XO-CHIP plane `p`: the top-left bit of its
2x2 hires block, bit `127 - 2 cx` of row `2 cy`. -/
def Machine.xoLoresPixel (m : Machine) (p cx cy : Nat) : Bool :=
  (m.xoPlaneRow p (2 * cy)).testBit (127 - 2 * cx)

/-- A fixed RNG stream for the concrete scenarios (none executes `Cxnn`). -/
def noRng : Nat → Nat := fun _ => 0

/-- Scenario "jump self-loop": ROM `12 00`. -/
def jumpLoopMachine (k : DynKind) : Machine :=
  DynamicMachine.new k [0x12, 0x00] noRng

/-- A fresh VIP machine whose first opcode is a draw (`D011`): its vblank
flag is false, so the draw must wait iff nobody raises vblank first. -/
def c1DrawMachine : Machine :=
  DynamicMachine.new .cosmacVip [0xD0, 0x11] noRng

/-- A modern SUPER-CHIP machine whose first opcode exits cleanly (`00FD`)
and whose second opcode (`0000`) is invalid. -/
def c1ExitMachine : Machine :=
  DynamicMachine.new .modernSuperChip [0x00, 0xFD, 0x00, 0x00] noRng

/-- A VIP machine executing `00EE` with an empty stack. -/
def c2StackEmptyMachine : Machine :=
  DynamicMachine.new .cosmacVip [0x00, 0xEE] noRng

/-- A VIP machine executing the unrecognized opcode `8008`. -/
def c2NoMatchMachine : Machine :=
  DynamicMachine.new .cosmacVip [0x80, 0x08] noRng

/-- A VIP machine executing `2200` (call) with a full stack. -/
def c2StackFullMachine : Machine :=
  let m := DynamicMachine.new .cosmacVip [0x22, 0x00] noRng
  { m with cpu := { m.cpu with sp := 15 } }

/-- A VIP machine executing `F033` (BCD) with `i` so close to the end of
memory that the three-byte write is out of range. -/
def c2MemRangeMachine : Machine :=
  let m := DynamicMachine.new .cosmacVip [0xF0, 0x33] noRng
  { m with cpu := { m.cpu with i := 0xFFE } }

/-- A legacy SUPER-CHIP machine executing `D000` (large sprite) in lores
with the `lores_draw_large_as_small` quirk edited off by the host, which
makes the screen reject the operation. -/
def c2ScreenOpMachine : Machine :=
  let m := DynamicMachine.new .legacySuperChip [0xD0, 0x00] noRng
  let q := { m.model.quirks with loresDrawLargeAsSmall := false }
  { m with
    model := { m.model with quirks := q },
    vblank := true }

/-- A VIP machine executing opcode `0000` (invalid without the graceful
exit quirk). -/
def c2Zero0000Machine : Machine :=
  DynamicMachine.new .cosmacVip [0x00, 0x00] noRng

/-- Scenario 5 on the VIP: ROM `D011` with the sprite byte `FF` at 0x202,
`i` pointing at it, `v0 = 62`, `v1 = 0`, vblank raised so the draw
proceeds. -/
def c3VipMachine : Machine :=
  let m := DynamicMachine.new .cosmacVip [0xD0, 0x11, 0xFF] noRng
  { m with
    cpu := { m.cpu with i := 0x202, v := m.cpu.v.set 0 62 },
    vblank := true }

/-- Scenario 5 on the XO-CHIP variant: same ROM and registers. -/
def c3XoMachine : Machine :=
  let m := DynamicMachine.new .xoChip [0xD0, 0x11, 0xFF] noRng
  { m with cpu := { m.cpu with i := 0x202, v := m.cpu.v.set 0 62 } }

/-- Carry scenario: `8014` with `v0 = 0xFF`, `v1 = 0x01`. -/
def c4AddMachine1 : Machine :=
  let m := DynamicMachine.new .cosmacVip [0x80, 0x14] noRng
  { m with cpu := { m.cpu with v := (m.cpu.v.set 0 0xFF).set 1 0x01 } }

/-- Carry scenario: `8014` with `v0 = 0x01`, `v1 = 0x01`. -/
def c4AddMachine2 : Machine :=
  let m := DynamicMachine.new .cosmacVip [0x80, 0x14] noRng
  { m with cpu := { m.cpu with v := (m.cpu.v.set 0 0x01).set 1 0x01 } }

/-- Carry scenario with `x = 0xF`: `8F14` with `vF = 0xFF`, `v1 = 0x01`,
so the flag write lands on the destination register. -/
def c4AddMachineVF : Machine :=
  let m := DynamicMachine.new .cosmacVip [0x8F, 0x14] noRng
  { m with cpu := { m.cpu with v := (m.cpu.v.set 0xF 0xFF).set 1 0x01 } }

/-- Borrow scenario with `x = 0xF`: `8F15` with `vF = 0x05`, `v1 = 0x01`,
so the flag (no borrow, `1`) lands on the destination register. -/
def c4SubMachineVF : Machine :=
  let m := DynamicMachine.new .cosmacVip [0x8F, 0x15] noRng
  { m with cpu := { m.cpu with v := (m.cpu.v.set 0xF 0x05).set 1 0x01 } }

/-- Skip scenario on XO-CHIP: `3000` (taken, `v0 = 0`) followed by the
double word `F000`, which must be skipped whole. -/
def c5SkipF000Machine : Machine :=
  DynamicMachine.new .xoChip [0x30, 0x00, 0xF0, 0x00, 0x12, 0x00] noRng

/-- Skip scenario on XO-CHIP: `3000` (taken) followed by an ordinary
word. -/
def c5SkipPlainMachine : Machine :=
  DynamicMachine.new .xoChip [0x30, 0x00, 0x12, 0x00] noRng

/-- The C10 failing input: `F001` selects zero drawing planes, then
`D001` draws. -/
def c10Machine : Machine :=
  DynamicMachine.new .xoChip [0xF0, 0x01, 0xD0, 0x01] noRng

/-- The CPU after one `push_stack` from the initial state. -/
def pushedInitialCpu : Cpu :=
  { Cpu.initial with sp := 1, stack := (List.replicate 16 0).set 1 0x200 }

/-- The C5 skip machine advanced to the point where `skip_if` reads the
word to be skipped (the `F000` at 0x202). -/
def c5SkipF000AtWord : Machine :=
  { c5SkipF000Machine with
    cpu := { c5SkipF000Machine.cpu with pc := 0x202 } }

/-- The VIP screen result for the bottom-edge row-clipping check: a
two-row sprite drawn at `y = 31` touches only row 31. -/
def c3VipRowClipResult : CosmacVipScreen × Bool :=
  CosmacVipScreen.drawSprite ⟨List.replicate 32 0⟩ 0 31 [0xFF, 0xFF]

/-- The XO-CHIP screen result for the bottom-edge row-wrapping check: a
two-row sprite drawn in hires at `y = 63` wraps to row 0. -/
def c3XoRowWrapResult : Except Fail (XoChipScreen × Bool) :=
  XoChipScreen.drawSprite
    ⟨List.replicate 4 (List.replicate 64 0), [false, false, false, true], true⟩
    0 63 [0x80, 0x80]

/-- Plane row of a successful XO-CHIP screen-draw result. -/
def exceptXoRow (r : Except Fail (XoChipScreen × Bool)) (p row : Nat) : Nat :=
  match r with
  | .ok s => (s.1.data.getD p []).getD row 0
  | .error _ => 0

/-! ## Theorems -/

/-- Applying a bound `M` computation to a state unfolds to a match on the
first computation's result. -/
theorem bindM_apply {α β : Type} (x : M α) (f : α → M β) (s : Machine) :
    (x >>= f) s = match x s with
      | .ok a s' => f a s'
      | .error e s' => .error e s' := by
  show EStateM.bind x f s = _
  unfold EStateM.bind
  cases x s <;> rfl

/-- On each of the four models, the jump-self-loop machine is a fixpoint
of `tick`. -/
theorem tick_jumpLoop_fix (k : DynKind) :
    Chip8.tick (jumpLoopMachine k) = .ok false (jumpLoopMachine k) := by
  cases k <;> rfl

/-- C9: on every model, the machine built from the ROM `12 00` keeps
`pc = 0x200` forever: any number of ticks returns neither an error nor an
exit flag and leaves the machine unchanged. -/
theorem c9_jump_self_loop (k : DynKind) (n : Nat) :
    runTicks n (jumpLoopMachine k) = .ok false (jumpLoopMachine k)
    ∧ (jumpLoopMachine k).cpu.pc = 0x200 := by
  refine ⟨?_, by cases k <;> rfl⟩
  induction n with
  | zero => rfl
  | succ n ih => rw [runTicks, tick_jumpLoop_fix k]; exact ih

/-- C10: executing `F001` (select zero planes) and then `D001` on the
XO-CHIP machine reaches `XoChipScreen::draw_sprite` with zero active
planes, where the Rust division `sprite.len() / num_active_planes()`
divides by zero and panics: the first tick succeeds and disables every
plane, the second tick fails with the panic, not with a collision flag. -/
theorem c10_draw_sprite_division_panics :
    resExit (runTicks 1 c10Machine) = some false
    ∧ (resMachine (runTicks 1 c10Machine)).screen.numActivePlanes = 0
    ∧ resFail (runTicks 2 c10Machine) = some .panicked :=
  ⟨rfl, rfl, rfl⟩

/-- C2 counterexample: `00EE` on an empty stack is a fatal `StackEmpty`
error, yet the program counter after the erroring tick is `0x202`, two
past the offending opcode at `0x200` — the claimed rewind does not
happen for this error. -/
theorem c2_counterexample_stack_empty_pc :
    resFail (Chip8.tick c2StackEmptyMachine) = some (.err .stackEmpty)
    ∧ c2StackEmptyMachine.cpu.pc = 0x200
    ∧ (resMachine (Chip8.tick c2StackEmptyMachine)).cpu.pc = 0x202
    ∧ (resMachine (Chip8.tick c2StackEmptyMachine)).cpu.pc
      ≠ c2StackEmptyMachine.cpu.pc :=
  ⟨rfl, rfl, rfl, by decide⟩

/-- C2 (amended): only the unmatched-opcode arm rewinds `pc` to the
offending opcode; every other fatal error — `InvalidInstruction` from
opcode `0000`, `StackEmpty` from `00EE`, `StackFull` from `2nnn`,
`InvalidMemoryRange` from an operand access, and an unsupported screen
operation — leaves `pc` two bytes past the opcode. -/
theorem c2_amended_pc_on_error :
    (resFail (Chip8.tick c2NoMatchMachine)
        = some (.err (.invalidInstruction 0x8008))
      ∧ (resMachine (Chip8.tick c2NoMatchMachine)).cpu.pc = 0x200)
    ∧ (resFail (Chip8.tick c2StackEmptyMachine) = some (.err .stackEmpty)
      ∧ (resMachine (Chip8.tick c2StackEmptyMachine)).cpu.pc = 0x202)
    ∧ (resFail (Chip8.tick c2StackFullMachine) = some (.err .stackFull)
      ∧ (resMachine (Chip8.tick c2StackFullMachine)).cpu.pc = 0x202)
    ∧ (resFail (Chip8.tick c2MemRangeMachine)
        = some (.err (.invalidMemoryRange 0xFFE 0x1001 0x1000))
      ∧ (resMachine (Chip8.tick c2MemRangeMachine)).cpu.pc = 0x202)
    ∧ (resFail (Chip8.tick c2ScreenOpMachine)
        = some (.err (.unsupportedScreenOperation .largeSpriteInLores))
      ∧ (resMachine (Chip8.tick c2ScreenOpMachine)).cpu.pc = 0x202)
    ∧ (resFail (Chip8.tick c2Zero0000Machine)
        = some (.err (.invalidInstruction 0))
      ∧ (resMachine (Chip8.tick c2Zero0000Machine)).cpu.pc = 0x202) :=
  ⟨⟨rfl, rfl⟩, ⟨rfl, rfl⟩, ⟨rfl, rfl⟩, ⟨rfl, rfl⟩, ⟨rfl, rfl⟩, ⟨rfl, rfl⟩⟩

/-- C1 counterexample: `tick_many` does not behave as the spec-modelled
`specTickMany`.  On a fresh VIP machine whose first opcode is a draw,
`tick_many(1)` leaves `pc = 0x200` (the draw waited because no vblank was
raised), while the claimed behavior would have raised vblank and drawn,
leaving `pc = 0x202`.  On a machine whose first opcode exits cleanly and
whose second is invalid, `tick_many(2)` keeps ticking past the exit and
fails, while the claimed behavior stops early and reports the exit. -/
theorem c1_counterexample_tickMany :
    (resMachine (Machine.tickMany 1 c1DrawMachine)).cpu.pc = 0x200
    ∧ (resMachine (specTickMany 1 c1DrawMachine)).cpu.pc = 0x202
    ∧ resFail (Machine.tickMany 2 c1ExitMachine)
      = some (.err (.invalidInstruction 0))
    ∧ resExit (specTickMany 2 c1ExitMachine) = some true :=
  ⟨rfl, rfl, rfl, rfl⟩

/-- C1 (amended): `tick_many(n)` calls `tick` `n` times, stopping early
only on an error; it discards each tick's clean-exit flag and always
reports `false` itself.  It performs no vblank raise: the raise happens in
`render_frame`, and every completed (non-exiting) tick ends with the
vblank flag lowered. -/
theorem c1_amended_tickMany (n : Nat) (m m' : Machine) (b : Bool) :
    (Machine.tickMany n m = .ok b m' → b = false)
    ∧ (Machine.renderFrame m).vblank = true
    ∧ (Chip8.tick m = .ok b m' → b = true ∨ m'.vblank = false) := by
  refine ⟨?_, by simp [Machine.renderFrame], ?_⟩
  · induction n generalizing m with
    | zero =>
      intro h
      have h' : (EStateM.Result.ok false m : EStateM.Result Fail Machine Bool)
          = .ok b m' := h
      injection h' with h1 _
      exact h1.symm
    | succ n ih =>
      intro h
      rw [Machine.tickMany, bindM_apply] at h
      revert h
      cases Chip8.tick m with
      | ok a s => exact ih s
      | error e s => intro h; cases h
  · intro h
    rw [Chip8.tick, bindM_apply] at h
    revert h
    cases htick : Chip8.tickInner m with
    | error e s => intro h; cases h
    | ok exit s =>
      cases exit with
      | true => intro h; cases h; exact Or.inl rfl
      | false =>
        intro h
        refine Or.inr ?_
        have : (modify (fun m =>
            if m.vblank then { m with vblank := false } else m) >>=
            fun _ => pure false : M Bool) s = .ok b m' := h
        rw [bindM_apply] at this
        have hm' : m' = if s.vblank then { s with vblank := false } else s := by
          cases hv : s.vblank <;> simp [hv, modify, modifyGet, MonadStateOf.modifyGet,
            EStateM.modifyGet, pure, EStateM.pure] at this <;> exact this.2.symm
        rw [hm']
        cases hv : s.vblank <;> simp [hv]

/-- Witness for the amended C1 theorem, at the jump-loop VIP machine. -/
theorem c1_amended_tickMany_witness :
    Machine.tickMany 1 (jumpLoopMachine .cosmacVip)
      = .ok false (jumpLoopMachine .cosmacVip)
    ∧ Chip8.tick (jumpLoopMachine .cosmacVip)
      = .ok false (jumpLoopMachine .cosmacVip)
    ∧ false = false
    ∧ (Machine.renderFrame (jumpLoopMachine .cosmacVip)).vblank = true
    ∧ (false = true ∨ (jumpLoopMachine .cosmacVip).vblank = false) :=
  ⟨rfl, rfl,
    (c1_amended_tickMany 1 (jumpLoopMachine .cosmacVip)
      (jumpLoopMachine .cosmacVip) false).1 rfl,
    (c1_amended_tickMany 1 (jumpLoopMachine .cosmacVip)
      (jumpLoopMachine .cosmacVip) false).2.1,
    (c1_amended_tickMany 1 (jumpLoopMachine .cosmacVip)
      (jumpLoopMachine .cosmacVip) false).2.2 rfl⟩

/-- C8: the stack-pointer invariant.  `sp` starts at 0; `push_stack` and
`pop_stack` — the only operations that write `sp` — keep it below 16
(matching the `u4` type of the Rust field); and `push_stack` at `sp = 15`
fails with `StackFull` leaving the whole machine, in particular `sp`, the
stack array and `pc`, unchanged. -/
theorem c8_sp_invariant :
    Cpu.initial.sp = 0
    ∧ (∀ m : Machine, m.cpu.sp = 15 →
        liftCpu Cpu.pushStack m = .error (.err .stackFull) m)
    ∧ (∀ c c' : Cpu, c.sp < 16 → Cpu.pushStack c = .ok c' →
        c'.sp < 16 ∧ c'.sp = c.sp + 1)
    ∧ (∀ c c' : Cpu, c.sp < 16 → Cpu.popStack c = .ok c' → c'.sp < 16) := by
  refine ⟨rfl, ?_, ?_, ?_⟩
  · intro m h
    simp [liftCpu, Cpu.pushStack, h]
  · intro c c' h hp
    unfold Cpu.pushStack at hp
    split at hp
    next => cases hp
    next h15 =>
      injection hp with h2
      subst h2
      exact ⟨by simp; omega, by simp⟩
  · intro c c' h hp
    unfold Cpu.popStack at hp
    split at hp
    next => cases hp
    next h0 =>
      injection hp with h2
      subst h2
      simp
      omega

/-- Witness for the C8 theorem: `push_stack` on the full-stack machine
fails in place, and on the initial CPU it increments `sp` to 1. -/
theorem c8_sp_invariant_witness :
    c2StackFullMachine.cpu.sp = 15
    ∧ liftCpu Cpu.pushStack c2StackFullMachine
      = .error (.err .stackFull) c2StackFullMachine
    ∧ Cpu.initial.sp < 16
    ∧ Cpu.pushStack Cpu.initial = .ok pushedInitialCpu
    ∧ pushedInitialCpu.sp < 16 := by
  refine ⟨rfl, c8_sp_invariant.2.1 c2StackFullMachine rfl, by decide, rfl, ?_⟩
  exact (c8_sp_invariant.2.2.1 Cpu.initial pushedInitialCpu (by decide) rfl).1

/-- C4: `Cpu::arithmetic_op_vf` (the helper behind `8xy4`, `8xy5`,
`8xy7`) writes the primary register first and the flag second, so `vF`
always ends up holding the flag, even when `x = 0xF`; concretely, `8014`
with `v0 = 0xFF, v1 = 0x01` yields `v0 = 0x00, vF = 1`, with
`v0 = 0x01, v1 = 0x01` it yields `v0 = 0x02, vF = 0`, and with `x = 0xF`
the destination register receives the flag (`8F14`, `8F15`). -/
theorem c4_arithmetic_flag_order :
    (∀ (c : Cpu) (x y : Nat) (f : Nat → Nat → Nat × Bool),
      x < 16 → c.v.length = 16 →
      (c.arithmeticOpVf x y f).getV 0xF
          = (if (f (c.getV x) (c.getV y)).2 then 1 else 0)
      ∧ (x ≠ 0xF → (c.arithmeticOpVf x y f).getV x
          = (f (c.getV x) (c.getV y)).1))
    ∧ ((resMachine (Chip8.tick c4AddMachine1)).cpu.getV 0 = 0x00
      ∧ (resMachine (Chip8.tick c4AddMachine1)).cpu.getV 0xF = 1)
    ∧ ((resMachine (Chip8.tick c4AddMachine2)).cpu.getV 0 = 0x02
      ∧ (resMachine (Chip8.tick c4AddMachine2)).cpu.getV 0xF = 0)
    ∧ (resMachine (Chip8.tick c4AddMachineVF)).cpu.getV 0xF = 1
    ∧ (resMachine (Chip8.tick c4SubMachineVF)).cpu.getV 0xF = 1 := by
  refine ⟨?_, ⟨rfl, rfl⟩, ⟨rfl, rfl⟩, rfl, rfl⟩
  intro c x y f hx hlen
  unfold Cpu.arithmeticOpVf Cpu.setV Cpu.getV
  constructor
  · rw [List.getD_eq_getElem?_getD, List.getElem?_set_self (by simp [hlen]),
      Option.getD_some]
  · intro hxf
    rw [List.getD_eq_getElem?_getD, List.getElem?_set_ne (by omega),
      List.getElem?_set_self (by simp [hlen]; omega), Option.getD_some]

/-- Witness for the C4 theorem at a concrete CPU (`x = 2`, `y = 3`,
overflowing add on the initial registers). -/
theorem c4_arithmetic_flag_order_witness :
    (2 : Nat) < 16
    ∧ Cpu.initial.v.length = 16
    ∧ (Cpu.initial.arithmeticOpVf 2 3
        (fun a b => ((a + b) % 256, decide (a + b ≥ 256)))).getV 0xF
      = (if (decide ((Cpu.initial.getV 2) + (Cpu.initial.getV 3) ≥ 256))
          then 1 else 0)
    ∧ ((2 : Nat) ≠ 0xF → (Cpu.initial.arithmeticOpVf 2 3
        (fun a b => ((a + b) % 256, decide (a + b ≥ 256)))).getV 2
      = ((Cpu.initial.getV 2) + (Cpu.initial.getV 3)) % 256) := by
  refine ⟨by decide, by decide, ?_, ?_⟩
  · exact (c4_arithmetic_flag_order.1 Cpu.initial 2 3 _ (by decide)
      (by decide)).1
  · exact (c4_arithmetic_flag_order.1 Cpu.initial 2 3 _ (by decide)
      (by decide)).2

/-- Testing a key bit via the press mask equals `Nat.testBit`. -/
theorem testBit_iff_and_shift (keys key : Nat) :
    (decide (keys &&& (1 <<< key) ≠ 0)) = keys.testBit key := by
  rw [Nat.one_shiftLeft, Nat.and_two_pow]
  cases h : keys.testBit key <;> simp [h]

/-- C6: a key event whose kind matches the model's `key_wait_trigger` and
which actually flips the key's bit in the press mask records the pending
key as the minimum of the existing pending key (if any) and the new key;
any other event leaves the pending key unchanged. -/
theorem c6_keypad_pending_min (k : Keypad) (key : Nat) (ev trigger : KeyEvent)
    (hkey : key < 16) :
    ((ev = trigger
        ∧ (k.onEvent key ev trigger).keys.testBit key ≠ k.keys.testBit key) →
      (k.onEvent key ev trigger).event = some (min (k.event.getD key) key))
    ∧ ((ev ≠ trigger
        ∨ (k.onEvent key ev trigger).keys.testBit key = k.keys.testBit key) →
      (k.onEvent key ev trigger).event = k.event) := by
  have hset : (k.keys ||| (1 <<< key)).testBit key = true := by
    rw [Nat.one_shiftLeft, Nat.testBit_lor, Nat.testBit_two_pow]
    simp
  have hclr : (k.keys &&& (0xFFFF ^^^ (1 <<< key))).testBit key = false := by
    rw [Nat.one_shiftLeft, Nat.testBit_land, Nat.testBit_xor,
      Nat.testBit_two_pow]
    rw [show (0xFFFF : Nat) = 2 ^ 16 - 1 from rfl, Nat.testBit_two_pow_sub_one]
    simp [hkey]
  unfold Keypad.onEvent
  rw [testBit_iff_and_shift]
  cases ev <;> cases trigger <;>
    cases hw : k.keys.testBit key <;>
    simp [hw, hset, hclr]

/-- Witness for the C6 theorem: a press edge on key 7 with a press
trigger records pending key 7. -/
theorem c6_keypad_pending_min_witness :
    (7 : Nat) < 16
    ∧ (KeyEvent.press = KeyEvent.press
      ∧ ((⟨0, false, none⟩ : Keypad).onEvent 7 .press .press).keys.testBit 7
        ≠ (⟨0, false, none⟩ : Keypad).keys.testBit 7)
    ∧ ((⟨0, false, none⟩ : Keypad).onEvent 7 .press .press).event
      = some (min (((⟨0, false, none⟩ : Keypad).event).getD 7) 7) := by
  refine ⟨by decide, ⟨rfl, by decide⟩, ?_⟩
  exact (c6_keypad_pending_min ⟨0, false, none⟩ 7 .press .press
    (by decide)).1 ⟨rfl, by decide⟩

/-- Xor of the pre- and post-image recovers the drawn mask. -/
theorem xor_xor_cancel_left (a b : Nat) : (a ^^^ b) ^^^ a = b := by
  rw [Nat.xor_comm a b, Nat.xor_assoc, Nat.xor_self, Nat.xor_zero]

/-- The clipping row loops, characterized against the zip of sprite lines
with the rows from the start position: the summing variant counts the
rows in which an on-pixel was erased, the boolean variant reports whether
that count is positive, and both update the rows identically. -/
theorem drawClip_count_spec (wd x : Nat) (lines : List Nat) :
    ∀ (rows : List Nat) (pos : Nat) (accN : Nat) (accB : Bool),
      (drawClipCountGo wd x rows pos lines accN).1
          = (drawClipGo wd x rows pos lines accB).1
      ∧ (drawClipCountGo wd x rows pos lines accN).2
          = accN + (lines.zip (rows.drop pos)).countP
              (fun p => decide (p.2 &&& ((drawLineC wd x p.2 p.1).1 ^^^ p.2) ≠ 0))
      ∧ (drawClipGo wd x rows pos lines accB).2
          = (accB || decide (0 < (lines.zip (rows.drop pos)).countP
              (fun p => decide (p.2 &&& ((drawLineC wd x p.2 p.1).1 ^^^ p.2) ≠ 0)))) := by
  induction lines with
  | nil => intro rows pos accN accB; simp [drawClipCountGo, drawClipGo]
  | cons line rest ih =>
    intro rows pos accN accB
    by_cases hpos : pos < rows.length
    · rw [drawClipCountGo, drawClipGo, if_pos hpos, if_pos hpos,
        List.drop_eq_getElem_cons hpos, List.zip_cons_cons, List.countP_cons]
      have hgetD : rows.getD pos 0 = rows[pos] := List.getD_eq_getElem rows 0 hpos
      have hdropset : ∀ d : Nat, (rows.set pos d).drop (pos + 1) = rows.drop (pos + 1) := by
        intro d
        rw [List.drop_set]
        simp
      have hpred : (decide (rows[pos] &&&
          ((drawLineC wd x rows[pos] line).1 ^^^ rows[pos]) ≠ 0))
          = (drawLineC wd x rows[pos] line).2 := by
        unfold drawLineC
        simp only []
        rw [xor_xor_cancel_left]
      obtain ⟨ih1, ih2, ih3⟩ := ih (rows.set pos (drawLineC wd x (rows.getD pos 0) line).1)
        (pos + 1) (accN + if (drawLineC wd x (rows.getD pos 0) line).2 then 1 else 0)
        (accB || (drawLineC wd x (rows.getD pos 0) line).2)
      rw [hgetD] at ih1 ih2 ih3 ⊢
      refine ⟨ih1, ?_, ?_⟩
      · rw [ih2, hdropset, hpred]
        cases h : (drawLineC wd x rows[pos] line).2 <;> simp [h] <;> omega
      · rw [ih3, hdropset, hpred]
        cases h : (drawLineC wd x rows[pos] line).2 <;> simp [h]
    · have hnil : rows.drop pos = [] := List.drop_eq_nil_of_le (by omega)
      rw [drawClipCountGo, drawClipGo, if_neg hpos, if_neg hpos, hnil]
      simp

/-- C7: in hires mode, on the same screen rows and 16x16 sprite, the
legacy SUPER-CHIP `draw_large_sprite` returns the number of sprite rows
in which at least one on-pixel was erased, while the modern SUPER-CHIP
`draw_large_sprite` returns `1` if any pixel collided and `0` otherwise;
both update the rows identically. -/
theorem c7_large_sprite_collision (rows : List Nat) (x y : Nat)
    (s0 : List Nat) (rest : List (List Nat)) :
    ∃ rows' cnt,
      LegacySuperChipScreen.drawLargeSprite ⟨rows, true⟩ x y (s0 :: rest)
        = .ok (⟨rows', true⟩, cnt)
      ∧ cnt = ((bytesToWords s0).zip (rows.drop (y % 64))).countP
          (fun p => decide (p.2 &&&
            ((drawLineC 112 (x % 128) p.2 p.1).1 ^^^ p.2) ≠ 0))
      ∧ ModernSuperChipScreen.drawLargeSprite ⟨rows, true⟩ x y (s0 :: rest)
        = .ok (⟨rows', true⟩, if cnt = 0 then 0 else 1) := by
  obtain ⟨h1, h2, h3⟩ := drawClip_count_spec 112 (x % 128) (bytesToWords s0)
    rows (y % 64) 0 false
  refine ⟨(drawClipCountGo 112 (x % 128) rows (y % 64) (bytesToWords s0) 0).1,
    (drawClipCountGo 112 (x % 128) rows (y % 64) (bytesToWords s0) 0).2,
    rfl, by rw [h2]; omega, ?_⟩
  have hm : ModernSuperChipScreen.drawLargeSprite ⟨rows, true⟩ x y (s0 :: rest)
      = .ok (⟨(drawClipGo 112 (x % 128) rows (y % 64) (bytesToWords s0) false).1,
          true⟩,
        if (drawClipGo 112 (x % 128) rows (y % 64) (bytesToWords s0) false).2
          then 1 else 0) := rfl
  rw [hm, ← h1, h3, h2]
  generalize (List.countP
      (fun p => decide (p.2 &&& ((drawLineC 112 (x % 128) p.2 p.1).1 ^^^ p.2) ≠ 0))
      ((bytesToWords s0).zip (List.drop (y % 64) rows))) = C
  by_cases h0 : C = 0
  · simp [h0]
  · simp [h0, Nat.pos_of_ne_zero h0]

/-- Reading the state is the identity effect. -/
theorem get_apply (m : Machine) : (get : M Machine) m = .ok m m := rfl

/-- A pure value leaves the machine unchanged. -/
theorem pure_apply {α : Type} (a : α) (m : Machine) : (pure a : M α) m = .ok a m := rfl

/-- In-bounds `read_word`: the big-endian word at `pc`, no state change. -/
theorem readWord_ok (m : Machine) (h : m.cpu.pc + 2 ≤ m.model.memorySize) :
    readWord m = .ok (m.memory m.cpu.pc * 256 + m.memory (m.cpu.pc + 1)) m := by
  have hs : memSliceM m.cpu.pc (m.cpu.pc + 2) m
      = .ok [m.memory m.cpu.pc, m.memory (m.cpu.pc + 1)] m := by
    unfold memSliceM Machine.memSlice
    rw [if_pos ⟨by omega, h⟩]
    norm_num [List.range_succ]
  unfold readWord
  simp only [bindM_apply, get_apply, hs, pure_apply]
  rfl

/-- In-bounds `inc_pc` advances `pc` by two. -/
theorem liftCpu_incPc_ok (m : Machine) (h : m.cpu.pc + 2 ≤ 0xFFFF) :
    liftCpu Cpu.incPc m
      = .ok () { m with cpu := { m.cpu with pc := m.cpu.pc + 2 } } := by
  unfold liftCpu Cpu.incPc
  rw [if_pos h]

/-- C5: `skip_if` on a true condition skips 4 bytes when the tier is at
least XO-CHIP and the word at the post-fetch `pc` is `0xF000`, else 2
bytes (including for lower tiers, which never look ahead); on a false
condition it does nothing.  Concretely, a taken `3xnn` followed by
`F000` leaves `pc = 0x206` after the tick, and followed by an ordinary
word leaves `pc = 0x204`. -/
theorem c5_skip_over_f000 (m : Machine) :
    (m.model.instructionSet.atLeast .xoChip = true →
      m.cpu.pc + 2 ≤ m.model.memorySize →
      m.memory m.cpu.pc * 256 + m.memory (m.cpu.pc + 1) = 0xF000 →
      m.cpu.pc + 4 ≤ 0xFFFF →
      Machine.skipIf true m
        = .ok () { m with cpu := { m.cpu with pc := m.cpu.pc + 4 } })
    ∧ (m.model.instructionSet.atLeast .xoChip = true →
      m.cpu.pc + 2 ≤ m.model.memorySize →
      m.memory m.cpu.pc * 256 + m.memory (m.cpu.pc + 1) ≠ 0xF000 →
      m.cpu.pc + 2 ≤ 0xFFFF →
      Machine.skipIf true m
        = .ok () { m with cpu := { m.cpu with pc := m.cpu.pc + 2 } })
    ∧ (m.model.instructionSet.atLeast .xoChip = false →
      m.cpu.pc + 2 ≤ 0xFFFF →
      Machine.skipIf true m
        = .ok () { m with cpu := { m.cpu with pc := m.cpu.pc + 2 } })
    ∧ Machine.skipIf false m = .ok () m
    ∧ (resMachine (Chip8.tick c5SkipF000Machine)).cpu.pc = 0x206
    ∧ (resMachine (Chip8.tick c5SkipPlainMachine)).cpu.pc = 0x204 := by
  refine ⟨?_, ?_, ?_, rfl, rfl, rfl⟩
  · intro hT hMem hWord hPc
    unfold Machine.skipIf
    rw [if_pos rfl]
    simp only [bindM_apply, get_apply, hT, if_true, readWord_ok m hMem, hWord,
      if_pos rfl, liftCpu_incPc_ok m (by omega)]
    rw [liftCpu_incPc_ok _ (by simp; omega)]
  · intro hT hMem hWord hPc
    unfold Machine.skipIf
    rw [if_pos rfl]
    simp only [bindM_apply, get_apply, hT, if_true, readWord_ok m hMem,
      if_neg hWord, pure_apply, liftCpu_incPc_ok m (by omega)]
  · intro hT hPc
    unfold Machine.skipIf
    rw [if_pos rfl]
    simp only [bindM_apply, get_apply, hT, Bool.false_eq_true, if_false,
      pure_apply, liftCpu_incPc_ok m (by omega)]

/-- Witness for the C5 theorem: the look-ahead and the plain path, both
at a concrete XO-CHIP machine. -/
theorem c5_skip_over_f000_witness :
    c5SkipF000AtWord.model.instructionSet.atLeast .xoChip = true
    ∧ c5SkipF000AtWord.cpu.pc + 2 ≤ c5SkipF000AtWord.model.memorySize
    ∧ c5SkipF000AtWord.memory c5SkipF000AtWord.cpu.pc * 256
        + c5SkipF000AtWord.memory (c5SkipF000AtWord.cpu.pc + 1) = 0xF000
    ∧ c5SkipF000AtWord.cpu.pc + 4 ≤ 0xFFFF
    ∧ Machine.skipIf true c5SkipF000AtWord
      = .ok () { c5SkipF000AtWord with
          cpu := { c5SkipF000AtWord.cpu with
            pc := c5SkipF000AtWord.cpu.pc + 4 } } := by
  refine ⟨rfl, by decide, by decide, by decide, ?_⟩
  exact (c5_skip_over_f000 c5SkipF000AtWord).1 rfl (by decide) (by decide)
    (by decide)

/-- A value below `2 ^ lbits` has no bit at or above `lbits`. -/
theorem testBit_false_of_le (line lbits idx : Nat) (hline : line < 2 ^ lbits)
    (h : lbits ≤ idx) : line.testBit idx = false :=
  Nat.testBit_lt_two_pow
    (lt_of_lt_of_le hline (Nat.pow_le_pow_right (by norm_num) h))

/-- Characterization of the clipping draw primitive: writing a
`lbits`-wide sprite line into a `dbits`-wide row at column `x` toggles
exactly the columns `x ≤ c < x + lbits` that fall inside the row (bit
`dbits - 1 - c` is column `c`); columns left of `x` and columns past the
right edge are untouched. -/
theorem clipMask_spec (dbits lbits x line c dest : Nat)
    (hl : 0 < lbits) (hld : lbits ≤ dbits) (hline : line < 2 ^ lbits)
    (hx : x < dbits) (hc : c < dbits) :
    (drawLineC (dbits - lbits) x dest line).1.testBit (dbits - 1 - c)
      = Bool.xor (dest.testBit (dbits - 1 - c))
          (decide (x ≤ c ∧ c < x + lbits)
            && line.testBit (x + lbits - 1 - c)) := by
  unfold drawLineC
  simp only [Nat.testBit_xor]
  congr 1
  set wd := dbits - lbits with hwd
  set b := dbits - 1 - c with hb
  rcases Nat.lt_trichotomy x wd with hxw | hxw | hxw
  · rw [if_pos hxw, Nat.testBit_shiftLeft]
    by_cases hcw : x ≤ c ∧ c < x + lbits
    · have hg : b ≥ wd - x := by omega
      have hi : b - (wd - x) = x + lbits - 1 - c := by omega
      simp [hg, hi, hcw]
    · by_cases hcx : c < x
      · have hg : b ≥ wd - x := by omega
        rw [testBit_false_of_le line lbits (b - (wd - x)) hline (by omega)]
        simp [hcw]
      · have hg : ¬ (b ≥ wd - x) := by omega
        simp [hg, hcw]
  · rw [if_neg (by omega), if_pos hxw]
    by_cases hcw : x ≤ c ∧ c < x + lbits
    · have hi : b = x + lbits - 1 - c := by omega
      simp [hi, hcw]
    · have : lbits ≤ b := by omega
      rw [testBit_false_of_le line lbits b hline this]
      simp [hcw]
  · rw [if_neg (by omega), if_neg (by omega), Nat.testBit_shiftRight]
    by_cases hcw : x ≤ c ∧ c < x + lbits
    · have hi : x - wd + b = x + lbits - 1 - c := by omega
      simp [hi, hcw]
    · have : lbits ≤ x - wd + b := by omega
      rw [testBit_false_of_le line lbits _ hline this]
      simp [hcw]

/-- Characterization of the wrapping draw primitive: writing a
`lbits`-wide sprite line into a 128-bit row at column `x` toggles exactly
the columns `(x + k) % 128` for `k < lbits`, torus-style. -/
theorem wrapMask_spec (lbits x line c dest : Nat)
    (hl : 0 < lbits) (hld : lbits ≤ 127) (hline : line < 2 ^ lbits)
    (hx : x < 128) (hc : c < 128) :
    (drawLineW (128 - lbits) x dest line).1.testBit (127 - c)
      = Bool.xor (dest.testBit (127 - c))
          (decide ((c + 128 - x) % 128 < lbits)
            && line.testBit (lbits - 1 - (c + 128 - x) % 128)) := by
  unfold drawLineW
  simp only [Nat.testBit_xor]
  congr 1
  set wd := 128 - lbits with hwd
  set b := 127 - c with hb
  rcases Nat.lt_trichotomy x wd with hxw | hxw | hxw
  · rw [if_pos hxw]
    unfold rotl128
    have hn : (wd - x) % 128 = wd - x := Nat.mod_eq_of_lt (by omega)
    rw [hn, Nat.testBit_lor, Nat.testBit_mod_two_pow, Nat.testBit_shiftLeft,
      Nat.testBit_shiftRight,
      testBit_false_of_le line lbits (128 - (wd - x) + b) hline (by omega),
      Bool.or_false]
    have hblt : b < 128 := by omega
    simp only [hblt, decide_eq_true_eq, decide_True, Bool.true_and]
    by_cases hcx : x ≤ c
    · have hk : (c + 128 - x) % 128 = c - x := by omega
      rw [hk]
      by_cases hcw : c - x < lbits
      · have hg : b ≥ wd - x := by omega
        have hi : b - (wd - x) = lbits - 1 - (c - x) := by omega
        simp [hg, hi, hcw]
      · have hg : ¬ (b ≥ wd - x) := by omega
        simp [hg, hcw]
    · have hk : (c + 128 - x) % 128 = c + 128 - x := by omega
      rw [hk]
      have hkl : ¬ (c + 128 - x < lbits) := by omega
      have hg : b ≥ wd - x := by omega
      rw [testBit_false_of_le line lbits (b - (wd - x)) hline (by omega)]
      simp [hkl]
  · rw [if_neg (by omega), if_pos hxw]
    by_cases hcx : x ≤ c
    · have hk : (c + 128 - x) % 128 = c - x := by omega
      rw [hk]
      by_cases hcw : c - x < lbits
      · have hi : b = lbits - 1 - (c - x) := by omega
        simp [hi, hcw]
      · rw [testBit_false_of_le line lbits b hline (by omega)]
        simp [hcw]
    · have hk : (c + 128 - x) % 128 = c + 128 - x := by omega
      rw [hk, testBit_false_of_le line lbits b hline (by omega)]
      have hkl : ¬ (c + 128 - x < lbits) := by omega
      simp [hkl]
  · rw [if_neg (by omega), if_neg (by omega)]
    unfold rotr128
    have hn : (x - wd) % 128 = x - wd := Nat.mod_eq_of_lt (by omega)
    rw [hn, Nat.testBit_lor, Nat.testBit_shiftRight, Nat.testBit_mod_two_pow,
      Nat.testBit_shiftLeft]
    have hblt : b < 128 := by omega
    simp only [hblt, decide_eq_true_eq, decide_True, Bool.true_and]
    by_cases hcx : x ≤ c
    · have hk : (c + 128 - x) % 128 = c - x := by omega
      rw [hk]
      have hkl : c - x < lbits := by omega
      have hi : x - wd + b = lbits - 1 - (c - x) := by omega
      have hg : ¬ (b ≥ 128 - (x - wd)) := by omega
      simp [hi, hkl, hg]
    · have hk : (c + 128 - x) % 128 = c + 128 - x := by omega
      rw [hk]
      by_cases hcn : c < x - wd
      · have hkl : c + 128 - x < lbits := by omega
        have hg : b ≥ 128 - (x - wd) := by omega
        have hi : b - (128 - (x - wd)) = lbits - 1 - (c + 128 - x) := by omega
        rw [testBit_false_of_le line lbits (x - wd + b) hline (by omega)]
        simp [hkl, hg, hi]
      · have hkl : ¬ (c + 128 - x < lbits) := by omega
        have hg : ¬ (b ≥ 128 - (x - wd)) := by omega
        rw [testBit_false_of_le line lbits (x - wd + b) hline (by omega)]
        simp [hkl, hg]

set_option maxRecDepth 8000 in
/-- C3: sprite drawing semantics.  Scenario 5 on the VIP machine (64x32,
`i` at a `FF` byte, `v0 = 62`, `v1 = 0`, opcode `D011`) sets exactly
pixels (62,0) and (63,0) with no wrap to (0,0) or (1,0) and `vF = 0`; on
the XO-CHIP variant the same inputs wrap, setting (62,0), (63,0) and
(0,0) through (5,0) but not (6,0).  In general the clipping primitive
used by the VIP and SUPER-CHIP screens clips columns at the right edge
while the wrapping primitive used by the XO-CHIP screen wraps them
torus-style (after the start coordinates are reduced modulo the screen
size), and rows clip at the bottom edge on the VIP but wrap on the
XO-CHIP. -/
theorem c3_sprite_clip_and_wrap :
    (resExit (Chip8.tick c3VipMachine) = some false
      ∧ (resMachine (Chip8.tick c3VipMachine)).vipPixel 62 0 = true
      ∧ (resMachine (Chip8.tick c3VipMachine)).vipPixel 63 0 = true
      ∧ (resMachine (Chip8.tick c3VipMachine)).vipPixel 0 0 = false
      ∧ (resMachine (Chip8.tick c3VipMachine)).vipPixel 1 0 = false
      ∧ (resMachine (Chip8.tick c3VipMachine)).cpu.getV 0xF = 0)
    ∧ ((resMachine (Chip8.tick c3XoMachine)).xoLoresPixel 3 62 0 = true
      ∧ (resMachine (Chip8.tick c3XoMachine)).xoLoresPixel 3 63 0 = true
      ∧ (resMachine (Chip8.tick c3XoMachine)).xoLoresPixel 3 0 0 = true
      ∧ (resMachine (Chip8.tick c3XoMachine)).xoLoresPixel 3 1 0 = true
      ∧ (resMachine (Chip8.tick c3XoMachine)).xoLoresPixel 3 2 0 = true
      ∧ (resMachine (Chip8.tick c3XoMachine)).xoLoresPixel 3 3 0 = true
      ∧ (resMachine (Chip8.tick c3XoMachine)).xoLoresPixel 3 4 0 = true
      ∧ (resMachine (Chip8.tick c3XoMachine)).xoLoresPixel 3 5 0 = true
      ∧ (resMachine (Chip8.tick c3XoMachine)).xoLoresPixel 3 6 0 = false)
    ∧ (∀ dbits lbits x line c dest : Nat,
        0 < lbits → lbits ≤ dbits → line < 2 ^ lbits → x < dbits → c < dbits →
        (drawLineC (dbits - lbits) x dest line).1.testBit (dbits - 1 - c)
          = Bool.xor (dest.testBit (dbits - 1 - c))
              (decide (x ≤ c ∧ c < x + lbits)
                && line.testBit (x + lbits - 1 - c)))
    ∧ (∀ lbits x line c dest : Nat,
        0 < lbits → lbits ≤ 127 → line < 2 ^ lbits → x < 128 → c < 128 →
        (drawLineW (128 - lbits) x dest line).1.testBit (127 - c)
          = Bool.xor (dest.testBit (127 - c))
              (decide ((c + 128 - x) % 128 < lbits)
                && line.testBit (lbits - 1 - (c + 128 - x) % 128)))
    ∧ (c3VipRowClipResult.1.rows.getD 31 0 = 0xFF <<< 56
      ∧ c3VipRowClipResult.1.rows.getD 0 0 = 0)
    ∧ ((exceptXoRow c3XoRowWrapResult 3 63).testBit 127 = true
      ∧ (exceptXoRow c3XoRowWrapResult 3 0).testBit 127 = true
      ∧ exceptXoRow c3XoRowWrapResult 3 1 = 0) := by
  refine ⟨⟨rfl, rfl, rfl, rfl, rfl, rfl⟩,
    ⟨rfl, rfl, rfl, rfl, rfl, rfl, rfl, rfl, rfl⟩,
    ?_, ?_, ⟨rfl, rfl⟩, ⟨rfl, rfl, rfl⟩⟩
  · intro dbits lbits x line c dest h1 h2 h3 h4 h5
    exact clipMask_spec dbits lbits x line c dest h1 h2 h3 h4 h5
  · intro lbits x line c dest h1 h2 h3 h4 h5
    exact wrapMask_spec lbits x line c dest h1 h2 h3 h4 h5

/-- Witness for the C3 theorem: the two general primitives evaluated at
the columns of scenario 5. -/
theorem c3_sprite_clip_and_wrap_witness :
    ((0 : Nat) < 8 ∧ (8 : Nat) ≤ 64 ∧ (0xFF : Nat) < 2 ^ 8
      ∧ (62 : Nat) < 64 ∧ (62 : Nat) < 64
      ∧ (drawLineC (64 - 8) 62 0 0xFF).1.testBit (64 - 1 - 62)
        = Bool.xor ((0 : Nat).testBit (64 - 1 - 62))
            (decide ((62 : Nat) ≤ 62 ∧ (62 : Nat) < 62 + 8)
              && (0xFF : Nat).testBit (62 + 8 - 1 - 62)))
    ∧ ((0 : Nat) < 16 ∧ (16 : Nat) ≤ 127 ∧ (0xFFFF : Nat) < 2 ^ 16
      ∧ (124 : Nat) < 128 ∧ (0 : Nat) < 128
      ∧ (drawLineW (128 - 16) 124 0 0xFFFF).1.testBit (127 - 0)
        = Bool.xor ((0 : Nat).testBit (127 - 0))
            (decide ((0 + 128 - 124) % 128 < 16)
              && (0xFFFF : Nat).testBit (16 - 1 - (0 + 128 - 124) % 128))) := by
  refine ⟨⟨by decide, by decide, by decide, by decide, by decide, ?_⟩,
    ⟨by decide, by decide, by decide, by decide, by decide, ?_⟩⟩
  · exact c3_sprite_clip_and_wrap.2.2.1 64 8 62 0xFF 62 0 (by decide)
      (by decide) (by decide) (by decide) (by decide)
  · exact c3_sprite_clip_and_wrap.2.2.2.1 16 124 0xFFFF 0 0 (by decide)
      (by decide) (by decide) (by decide) (by decide)

end Murmur8
